import Mathlib

/-!
Verification of the pdfi colour / image subsystem (pdf_colour.c, pdf_image.c).

The C sources are shallowly embedded: each embedded definition mirrors the
control flow of the named C function.  Error handling follows the C
convention of integer codes (0 = success, negative = gs_error_*); machine
integers are modelled as `Int`/`Nat` (conversions to fixed-width values are
noted where they matter); memory allocation is modelled as always
succeeding; external collaborators (object accessors, resource resolver,
ICC engine, rasterizer, pattern subsystem) are modelled through explicit
oracle parameters carrying their result codes, following their call
contracts.  Loops are written as fuel-indexed structural recursions; the
fuel bound is a modelling artifact (theorems quantify over it, or the
caller passes a bound large enough that exhaustion is unreachable).
-/

namespace Pdfi

/-! Error codes from gserrors.h, as used by the embedded functions. -/

def gs_error_ioerror : Int := -12
def gs_error_limitcheck : Int := -13
def gs_error_rangecheck : Int := -15
def gs_error_stackunderflow : Int := -17
def gs_error_syntaxerror : Int := -18
def gs_error_typecheck : Int := -20
def gs_error_undefined : Int := -21
def gs_error_VMerror : Int := -25
def gs_error_unknownerror : Int := -1

/-! Byte-stream model used by the JPX header scanner (pdf_image.c).
A stream is a byte list with a read position; `pdfi_read_bytes` fails with
an ioerror when fewer bytes than requested remain (short reads are not
modelled separately), `pdfi_seek_cur` advances the position. -/

structure PStream where
  data : List Nat
  pos : Nat
deriving Repr, DecidableEq

def pdfi_read_bytes (s : PStream) (n : Nat) : Except Int (List Nat × PStream) :=
  if s.pos + n ≤ s.data.length then
    .ok ((s.data.drop s.pos).take n, { s with pos := s.pos + n })
  else
    .error gs_error_ioerror

def pdfi_seek_cur (s : PStream) (off : Nat) : PStream :=
  { s with pos := s.pos + off }

/-- Big-endian 32-bit read, macro READ32BE in pdf_image.c. -/
def read32be (blob : List Nat) : Nat :=
  (blob.getD 0 0) * 16777216 + (blob.getD 1 0) * 65536 + (blob.getD 2 0) * 256 + blob.getD 3 0

/-- Big-endian 16-bit read, macro READ16BE in pdf_image.c. -/
def read16be (blob : List Nat) : Nat :=
  (blob.getD 0 0) * 256 + blob.getD 1 0

/-- Box type codes, macro K4 in pdf_image.c. -/
def k4 (a b c d : Nat) : Nat := a * 16777216 + b * 65536 + c * 256 + d

def box_jp2h : Nat := k4 106 112 50 104
def box_ihdr : Nat := k4 105 104 100 114
def box_bpcc : Nat := k4 98 112 99 99
def box_colr : Nat := k4 99 111 108 114
def box_pclr : Nat := k4 112 99 108 114
def box_cdef : Nat := k4 99 100 101 102

/-- Embedding of get_box (pdf_image.c:199).  Reads an 8-byte (length, type)
box header; fails with limitcheck when fewer than 8 bytes remain per the
caller-supplied length, or when the declared box length is below 8. -/
def get_box (s : PStream) (length : Int) : Except Int (Nat × Nat × PStream) :=
  if length < 8 then .error gs_error_limitcheck
  else
    match pdfi_read_bytes s 4 with
    | .error e => .error e
    | .ok (blob, s1) =>
      let box_len := read32be blob
      if box_len < 8 then .error gs_error_limitcheck
      else
        match pdfi_read_bytes s1 4 with
        | .error e => .error e
        | .ok (blob2, s2) => .ok (box_len, read32be blob2, s2)

/-- First loop of pdfi_scan_jpxfilter (pdf_image.c:254-270): skip top-level
boxes until the jp2h box is found.  On success returns the jp2h box's
remaining content length and the stream positioned inside it. -/
def find_jp2h (fuel : Nat) (s : PStream) (avail : Int) : Except Int (Nat × PStream) :=
  match fuel with
  | 0 => .error gs_error_ioerror
  | fuel + 1 =>
    if avail ≤ 0 then .error gs_error_ioerror
    else
      match get_box s avail with
      | .error e => .error e
      | .ok (blen, bval, s1) =>
        let avail1 := avail - 8
        let bl : Int := (blen : Int) - 8
        if bl ≤ 0 ∨ bl > avail1 then .error gs_error_syntaxerror
        else if bval = box_jp2h then
          if avail1 ≤ 0 then .error gs_error_ioerror else .ok (bl.toNat, s1)
        else
          find_jp2h fuel (pdfi_seek_cur s1 bl.toNat) (avail1 - bl)

/-- Header metadata carried across the box-parsing loop; mirrors the local
variables of pdfi_scan_jpxfilter plus the pdfi_jpx_info_t fields that are
assigned during the loop (iccbased, icc_offset, icc_length). -/
structure JpxParse where
  bpc : Nat
  cs_enum : Nat
  got_color : Bool
  iccbased : Bool
  icc_offset : Nat
  icc_length : Nat
deriving Repr, DecidableEq

/-- Dispatch on a single box inside jp2h (pdf_image.c:336-405).  `datapos`
is the stream position just after reading the box payload, used for the
embedded-ICC offset computation at line 374. -/
def jpx_box_dispatch (bval : Nat) (data : List Nat) (bl : Nat) (datapos : Nat)
    (comps : Nat) (ps : JpxParse) : JpxParse :=
  if bval = box_bpcc then
    { ps with bpc := data.getD 0 0 + 1 }
  else if bval = box_colr then
    if ps.got_color then ps
    else
      let cs_meth := data.getD 0 0
      if cs_meth = 1 then
        { ps with cs_enum := read32be (data.drop 3), got_color := true }
      else if cs_meth = 2 ∨ cs_meth = 3 then
        { ps with iccbased := true, icc_offset := datapos - (bl - 3),
                  icc_length := bl - 3, cs_enum := 0, got_color := true }
      else
        { ps with cs_enum := 0, got_color := true }
  else if bval = box_pclr then
    { ps with bpc := (data.getD 3 0) % 8 + 1 }
  else
    ps

/-- Second loop of pdfi_scan_jpxfilter (pdf_image.c:309-407): parse the
boxes inside jp2h.  Returns the C-style code together with the parse state
reached (partial on an abort, as in the source where info->iccbased may
already be set when a later box is malformed). -/
def jpx_parse_boxes (fuel : Nat) (comps : Nat) (s : PStream) (avail : Int)
    (ps : JpxParse) : Int × JpxParse :=
  match fuel with
  | 0 => (gs_error_ioerror, ps)
  | fuel + 1 =>
    if avail ≤ 0 then (0, ps)
    else
      match get_box s avail with
      | .error e => (e, ps)
      | .ok (blen, bval, s1) =>
        let avail1 := avail - 8
        let bl : Int := (blen : Int) - 8
        if bl ≤ 0 then (gs_error_syntaxerror, ps)
        else
          match pdfi_read_bytes s1 bl.toNat with
          | .error e => (e, ps)
          | .ok (data, s2) =>
            let ps1 := jpx_box_dispatch bval data bl.toNat s2.pos comps ps
            jpx_parse_boxes fuel comps s2 (avail1 - bl) ps1

/-- Result record of pdfi_scan_jpxfilter as seen by its caller plus the
internal code reaching the exit label. -/
structure JpxScanResult where
  ret : Int
  internal : Int
  comps : Nat
  bpc : Nat
  cs_enum : Nat
  iccbased : Bool
  icc_offset : Nat
  icc_length : Nat
deriving Repr, DecidableEq

/-- Body of pdfi_scan_jpxfilter up to the exit label (pdf_image.c:224-411):
computes the internal code and the info fields. -/
def pdfi_scan_jpxfilter_inner (s : PStream) (length : Int) : Int × JpxScanResult :=
  match find_jp2h (length.toNat + 1) s length with
  | .error e => (e, ⟨0, 0, 0, 0, 0, false, 0, 0⟩)
  | .ok (jp2h_len, s1) =>
    -- the first thing inside jp2h must be an ihdr box of payload length 14
    match get_box s1 (jp2h_len : Int) with
    | .error e => (e, ⟨0, 0, 0, 0, 0, false, 0, 0⟩)
    | .ok (blen, bval, s2) =>
      let avail : Int := (jp2h_len : Int) - 8
      let bl : Int := (blen : Int) - 8
      if bval ≠ box_ihdr then (gs_error_syntaxerror, ⟨0, 0, 0, 0, 0, false, 0, 0⟩)
      else if bl ≠ 14 then (gs_error_syntaxerror, ⟨0, 0, 0, 0, 0, false, 0, 0⟩)
      else
        match pdfi_read_bytes s2 14 with
        | .error e => (e, ⟨0, 0, 0, 0, 0, false, 0, 0⟩)
        | .ok (ihdr_data, s3) =>
          let comps := read16be (ihdr_data.drop 8)
          let bpc0 := ihdr_data.getD 10 0
          let bpc := if bpc0 ≠ 255 then bpc0 + 1 else bpc0
          let (code, ps) := jpx_parse_boxes (jp2h_len + 1) comps s3 (avail - 14)
              ⟨bpc, 0, false, false, 0, 0⟩
          if code < 0 then
            (code, ⟨0, 0, 0, 0, 0, ps.iccbased, ps.icc_offset, ps.icc_length⟩)
          else
            (0, ⟨0, 0, comps, ps.bpc, ps.cs_enum, ps.iccbased, ps.icc_offset, ps.icc_length⟩)

/-- Embedding of pdfi_scan_jpxfilter (pdf_image.c:224-421).  The exit label
at line 413-420 frees the buffer and then returns the literal 0 regardless
of the internal code ("Always return 0 -- there are cases where this no
image header at all, and just ignoring the header seems to work"). -/
def pdfi_scan_jpxfilter (s : PStream) (length : Int) : JpxScanResult :=
  let r := pdfi_scan_jpxfilter_inner s length
  { r.2 with ret := 0, internal := r.1 }

/-! Embedding of pdfi_image_setup_type4 (pdf_image.c:976-1061): the Type-4
colour-key mask setup.  A mask-array entry is an integer, a non-integral
number (already rounded to an integer per line 1008; the floating-point
rounding itself is outside the model), or a non-number. -/

inductive MaskEntry where
  | int (n : Int)
  | real (rounded : Int)
  | nonnum
deriving Repr, DecidableEq

/-- Value extraction for one mask-array element (pdf_image.c:1004-1013):
pdfi_array_get_int, falling back to pdfi_array_get_number with rounding
(the Bool records had_float_error); a non-number propagates typecheck. -/
def mask_entry_val : MaskEntry → Except Int (Int × Bool)
  | .int n => .ok (n, false)
  | .real r => .ok (r, true)
  | .nonnum => .error gs_error_typecheck

/-- GS_IMAGE_MAX_COMPONENTS (build-configurable in the graphics library;
the size guard at pdf_image.c:998 is not load-bearing for any claim). -/
def GS_IMAGE_MAX_COMPONENTS : Nat := 64

/-- Bitwise AND of a two's-complement integer with the low-bit mask
`m = (1 << bpc) - 1` (pdf_image.c:985): `v & m` for such a mask extracts
the low bpc bits, i.e. reduces v modulo m + 1 = 2^bpc. -/
def and_mask (v m : Int) : Int := v % (m + 1)

/-- Conversion of an int64 value to the 32-bit unsigned MaskColor slot of
gs_image4_t (gsiparm4.h): C unsigned conversion reduces modulo 2^32, so a
negative or oversized value wraps (e.g. -3 is stored as 4294967293). -/
def uint32 (v : Int) : Int := v % 4294967296

/-- The per-entry loop of pdfi_image_setup_type4 (pdf_image.c:1003-1033).
Returns (code, MaskColor values stored, had_range_error, had_float_error).
Only `intval > maxval` (an int64 comparison on the untruncated value)
counts as out of range; for the non-indexed 1-bit case the value receives
no per-entry correction.  Each store `t4image->MaskColor[i] = intval`
(line 1033) truncates to the 32-bit unsigned field. -/
def t4_loop (maxval mask : Int) (bpc : Nat) (indexed_case : Bool) :
    List MaskEntry → Nat → List Int → Bool → Bool → Int × List Int × Bool × Bool
  | [], _, acc, re, fe => (0, acc, re, fe)
  | e :: rest, i, acc, re, fe =>
    match mask_entry_val e with
    | .error c => (c, acc, re, fe)
    | .ok (v, isf) =>
      let fe1 := fe || isf
      if v > maxval then
        if indexed_case then
          if i = 0 then (gs_error_rangecheck, acc, true, fe1)
          else t4_loop maxval mask bpc indexed_case rest (i + 1) (acc ++ [uint32 1]) true fe1
        else
          if bpc ≠ 1 then t4_loop maxval mask bpc indexed_case rest (i + 1) (acc ++ [uint32 (and_mask v mask)]) true fe1
          else t4_loop maxval mask bpc indexed_case rest (i + 1) (acc ++ [uint32 v]) true fe1
      else t4_loop maxval mask bpc indexed_case rest (i + 1) (acc ++ [uint32 v]) re fe1

/-- Result of pdfi_image_setup_type4: the code, the MaskColor values as
stored in the 32-bit unsigned MaskColor field of gs_image4_t (truncated
mod 2^32 by the store), and the error/warning bookkeeping of the exit
label (pdf_image.c:1051-1059). -/
structure T4Result where
  code : Int
  maskColor : List Int
  had_range_error : Bool
  had_float_error : Bool
  warn_image_error : Bool
deriving Repr, DecidableEq

/-- Embedding of pdfi_image_setup_type4 (pdf_image.c:976-1061).
`indexed_case` is the special case `pcs indexed ∧ BPC = 1` computed by the
caller context at line 993 (bugs 692852, 697919, 689717); the post-loop
1-bit check is the Bug701468 handling at lines 1036-1047, which compares
and masks the stored MaskColor values, i.e. the uint-truncated ones. -/
def pdfi_image_setup_type4 (bpc : Nat) (indexed_case : Bool)
    (mask_array : List MaskEntry) : T4Result :=
  let mask : Int := 2 ^ bpc - 1
  let maxval : Int := mask
  if mask_array.length > GS_IMAGE_MAX_COMPONENTS * 2 then
    ⟨gs_error_rangecheck, [], false, false, false⟩
  else
    match t4_loop maxval mask bpc indexed_case mask_array 0 [] false false with
    | (c, acc, re, fe) =>
      if c < 0 then ⟨c, acc, re, fe, re || fe⟩
      else
        if ¬indexed_case ∧ bpc = 1 ∧ re then
          if acc.getD 0 0 ≠ acc.getD 1 0 then
            ⟨gs_error_rangecheck, acc, re, fe, re || fe⟩
          else
            ⟨0, (acc.set 0 (and_mask (acc.getD 0 0) mask)).set 1 (and_mask (acc.getD 1 0) mask), re, fe, re || fe⟩
        else ⟨0, acc, re, fe, re || fe⟩

/-! Object model for the colour-space resolver and spot scanner.  A
dynamically-typed PDF object; `dict` covers both plain dictionaries and
stream dictionaries (a stream carries its decoded byte payload).  The
accessors below are modelled from the object-graph accessor contract
(pdf_dict.c / pdf_array.c are external to this core). -/

inductive PdfObj where
  | name (s : String)
  | arr (elems : List PdfObj)
  | intg (n : Int)
  | real (q : ℚ)
  | strg (data : List Nat)
  | dict (entries : List (String × PdfObj)) (streamData : Option (List Nat))
  | boolean (b : Bool)
  | other

inductive PdfType where
  | tname | tarr | tint | treal | tstring | tdict | tbool | tother
deriving Repr, DecidableEq

def PdfObj.typeOf : PdfObj → PdfType
  | .name _ => .tname
  | .arr _ => .tarr
  | .intg _ => .tint
  | .real _ => .treal
  | .strg _ => .tstring
  | .dict _ _ => .tdict
  | .boolean _ => .tbool
  | .other => .tother

/-- Modelled from the spec: arrayGet of the object-graph accessor contract
(§6); out-of-range index is a rangecheck failure. -/
def array_get (a : List PdfObj) (i : Nat) : Except Int PdfObj :=
  match a.get? i with
  | some o => .ok o
  | none => .error gs_error_rangecheck

/-- Modelled from the spec: typed arrayGet; a present element of the wrong
type tag is a typecheck failure. -/
def array_get_type (a : List PdfObj) (i : Nat) (t : PdfType) : Except Int PdfObj :=
  match array_get a i with
  | .error e => .error e
  | .ok o => if o.typeOf = t then .ok o else .error gs_error_typecheck

/-- Modelled from the spec: arrayGetInt of the accessor contract. -/
def array_get_int (a : List PdfObj) (i : Nat) : Except Int Int :=
  match array_get a i with
  | .ok (.intg n) => .ok n
  | .ok _ => .error gs_error_typecheck
  | .error e => .error e

/-- Modelled from the spec: getNumber of the accessor contract (reals are
modelled as rationals). -/
def obj_number : PdfObj → Except Int ℚ
  | .intg n => .ok (n : ℚ)
  | .real q => .ok q
  | _ => .error gs_error_typecheck

def array_get_number (a : List PdfObj) (i : Nat) : Except Int ℚ :=
  match array_get a i with
  | .ok o => obj_number o
  | .error e => .error e

/-- The element-by-element number-extraction loops used by the Lab / Cal
builders (e.g. pdf_colour.c:1341-1346): read `count` numbers starting at
element `i`, failing with the first element's error. -/
def array_num_list (a : List PdfObj) (i : Nat) (count : Nat) : Except Int (List ℚ) :=
  match count with
  | 0 => .ok []
  | count + 1 =>
    match array_get_number a i with
    | .error e => .error e
    | .ok q =>
      match array_num_list a (i + 1) count with
      | .error e => .error e
      | .ok qs => .ok (q :: qs)

/-- Modelled from the spec: dictGet of the accessor contract; a missing key
is gs_error_undefined. -/
def dict_get (d : List (String × PdfObj)) (k : String) : Except Int PdfObj :=
  match d.find? (fun e => e.1 = k) with
  | some e => .ok e.2
  | none => .error gs_error_undefined

/-- Modelled from the spec: dictGet with required type. -/
def dict_get_type (d : List (String × PdfObj)) (k : String) (t : PdfType) : Except Int PdfObj :=
  match dict_get d k with
  | .error e => .error e
  | .ok o => if o.typeOf = t then .ok o else .error gs_error_typecheck

/-- Modelled from the spec: pdfi_dict_knownget — a missing key is not an
error (`none`). -/
def dict_knownget (d : List (String × PdfObj)) (k : String) : Option PdfObj :=
  match d.find? (fun e => e.1 = k) with
  | some e => some e.2
  | none => none

/-- Modelled from the spec: pdfi_dict_knownget_type — a key that is missing
or of the wrong type yields `none` (callers treat both as absence). -/
def dict_knownget_type (d : List (String × PdfObj)) (k : String) (t : PdfType) : Option PdfObj :=
  match dict_knownget d k with
  | some o => if o.typeOf = t then some o else none
  | none => none

/-- Modelled from the spec: pdfi_dict_knownget_number. -/
def dict_knownget_number (d : List (String × PdfObj)) (k : String) : Option ℚ :=
  match dict_knownget d k with
  | some (.intg n) => some (n : ℚ)
  | some (.real q) => some q
  | _ => none

/-- Modelled from the spec: dictGetInt of the accessor contract. -/
def dict_get_int (d : List (String × PdfObj)) (k : String) : Except Int Int :=
  match dict_get d k with
  | .ok (.intg n) => .ok n
  | .ok _ => .error gs_error_typecheck
  | .error e => .error e

def entries_of : PdfObj → List (String × PdfObj)
  | .dict es _ => es
  | _ => []

def elems_of : PdfObj → List PdfObj
  | .arr es => es
  | _ => []

/-- Byte view of a name or string object's data, for the memcmp-style
comparisons of the source (ASCII assumed). -/
def name_bytes (s : String) : List Nat := s.data.map Char.toNat

/-! Resolved colour spaces (the observable shape of a gs_color_space):
variant, component count, and the payload the claims mention. -/

inductive CS where
  | deviceGray
  | deviceRGB
  | deviceCMYK
  | lab
  | cal (ncomps : Nat)
  | iccBased (ncomps : Nat)
  | indexed (base : CS) (hival : Nat) (table : List Nat)
  | indexedNamed (base : CS) (hival : Nat) (table : List Nat)
  | separation (alt : CS)
  | deviceN (n : Nat) (alt : CS)
  | pattern
deriving Repr, DecidableEq

/-- cs_num_components for the embedded colour spaces. -/
def CS.numComponents : CS → Nat
  | .deviceGray => 1
  | .deviceRGB => 3
  | .deviceCMYK => 4
  | .lab => 3
  | .cal n => n
  | .iccBased n => n
  | .indexed _ _ _ => 1
  | .indexedNamed _ _ _ => 1
  | .separation _ => 1
  | .deviceN n _ => n
  | .pattern => 1

def CS.is_sep_or_devn : CS → Bool
  | .separation _ => true
  | .deviceN _ _ => true
  | _ => false

/-- External collaborators of the colour-space resolver, per their call
contracts (§6 of the spec): the ColorSpace resource resolver, the pattern
subsystem, the function evaluator and the ICC/CMM engine are outside this
core, so their outcomes are oracle parameters. -/
structure REnv where
  resources : String → Option PdfObj
  pdfstoponwarning : Bool
  pattern_code : Int
  build_function_code : Int
  icc_profile_code : Int
  icc_profile_N : Nat
  icc_testrender_code : Int
  device_named : Bool
  lab_profile_present : Bool

/-- Loop-detector state: the number of live marks.  pdfi_loop_detector_mark
pushes one, pdfi_loop_detector_cleartomark clears back to the matching
mark (with balanced inner calls this removes exactly the one mark).
Mark failure (allocation) is not modelled. -/
structure RState where
  depth : Nat
deriving Repr, DecidableEq

def loop_mark (st : RState) : RState := { st with depth := st.depth + 1 }

def loop_cleartomark (st : RState) : RState := { st with depth := st.depth - 1 }

/-- C-style result of a resolver call: code (< 0 is an error), the colour
space produced (when any), and the threaded loop-detector state. -/
structure Res where
  code : Int
  cs : Option CS
  st : RState
deriving Repr, DecidableEq

/-- Embedding of pdfi_create_Lab (pdf_colour.c:1217-1251) together with
pdfi_seticc_lab (1174-1215): Range is required, must have exactly 4
numeric entries; the LABLUT profile must be present in the manager. -/
def create_Lab_body (env : REnv) (ca : List PdfObj) (index : Nat) (st : RState) : Res :=
  match array_get_type ca (index + 1) .tdict with
  | .error e => ⟨e, none, st⟩
  | .ok o =>
    match dict_get_type (entries_of o) "Range" .tarr with
    | .error e => ⟨e, none, st⟩
    | .ok rngObj =>
      let rng := elems_of rngObj
      if rng.length ≠ 4 then ⟨gs_error_rangecheck, none, st⟩
      else
        match array_num_list rng 0 4 with
        | .error e => ⟨e, none, st⟩
        | .ok _ =>
          if ¬env.lab_profile_present then ⟨gs_error_unknownerror, none, st⟩
          else ⟨0, some .lab, st⟩

/-- The BlackPoint element loop shared by the Cal builders
(pdf_colour.c:1363-1375): each entry must be a number and must not be
negative, failing element by element. -/
def num_nonneg_list (a : List PdfObj) (i count : Nat) : Except Int Unit :=
  match count with
  | 0 => .ok ()
  | count + 1 =>
    match array_get_number a i with
    | .error e => .error e
    | .ok f => if f < 0 then .error gs_error_rangecheck else num_nonneg_list a (i + 1) count

/-- Embedding of pdfi_create_CalGray (pdf_colour.c:1313-1396).  WhitePoint
is required with Yw = 1 and Xw, Zw nonnegative; BlackPoint, if present,
must have three nonnegative entries; Gamma, if present, must be
nonnegative.  The tail call to pdfi_seticc_cal produces the calibrated
space; its profile cache is embedded separately as `pdfi_seticc_cal`
(CalCacheState) since the resolver model does not thread the cache. -/
def create_CalGray_body (env : REnv) (ca : List PdfObj) (index : Nat) (st : RState) : Res :=
  match array_get_type ca (index + 1) .tdict with
  | .error e => ⟨e, none, st⟩
  | .ok o =>
    let d := entries_of o
    match dict_get_type d "WhitePoint" .tarr with
    | .error e => ⟨e, none, st⟩
    | .ok wpObj =>
      let wp := elems_of wpObj
      if wp.length ≠ 3 then ⟨gs_error_rangecheck, none, st⟩
      else
        match array_num_list wp 0 3 with
        | .error e => ⟨e, none, st⟩
        | .ok w =>
          if w.getD 0 0 < 0 ∨ w.getD 2 0 < 0 ∨ w.getD 1 0 ≠ 1 then
            ⟨gs_error_rangecheck, none, st⟩
          else
            let bpRes : Except Int Unit :=
              match dict_knownget_type d "BlackPoint" .tarr with
              | some bpObj =>
                let bp := elems_of bpObj
                if bp.length ≠ 3 then .error gs_error_rangecheck
                else num_nonneg_list bp 0 3
              | none => .ok ()
            match bpRes with
            | .error e => ⟨e, none, st⟩
            | .ok _ =>
              let g := (dict_knownget_number d "Gamma").getD 1
              if g < 0 then ⟨gs_error_rangecheck, none, st⟩
              else ⟨0, some (.cal 1), st⟩

/-- Embedding of pdfi_create_CalRGB (pdf_colour.c:1398-1498): like CalGray
but with a 3-entry Gamma array (values unchecked) and a 9-entry Matrix. -/
def create_CalRGB_body (env : REnv) (ca : List PdfObj) (index : Nat) (st : RState) : Res :=
  match array_get_type ca (index + 1) .tdict with
  | .error e => ⟨e, none, st⟩
  | .ok o =>
    let d := entries_of o
    match dict_get_type d "WhitePoint" .tarr with
    | .error e => ⟨e, none, st⟩
    | .ok wpObj =>
      let wp := elems_of wpObj
      if wp.length ≠ 3 then ⟨gs_error_rangecheck, none, st⟩
      else
        match array_num_list wp 0 3 with
        | .error e => ⟨e, none, st⟩
        | .ok w =>
          if w.getD 0 0 < 0 ∨ w.getD 2 0 < 0 ∨ w.getD 1 0 ≠ 1 then
            ⟨gs_error_rangecheck, none, st⟩
          else
            let bpRes : Except Int Unit :=
              match dict_knownget_type d "BlackPoint" .tarr with
              | some bpObj =>
                let bp := elems_of bpObj
                if bp.length ≠ 3 then .error gs_error_rangecheck
                else num_nonneg_list bp 0 3
              | none => .ok ()
            match bpRes with
            | .error e => ⟨e, none, st⟩
            | .ok _ =>
              let gRes : Except Int Unit :=
                match dict_knownget_type d "Gamma" .tarr with
                | some gObj =>
                  let gl := elems_of gObj
                  if gl.length ≠ 3 then .error gs_error_rangecheck
                  else
                    match array_num_list gl 0 3 with
                    | .error e => .error e
                    | .ok _ => .ok ()
                | none => .ok ()
              match gRes with
              | .error e => ⟨e, none, st⟩
              | .ok _ =>
                let mRes : Except Int Unit :=
                  match dict_knownget_type d "Matrix" .tarr with
                  | some mObj =>
                    let ml := elems_of mObj
                    if ml.length ≠ 9 then .error gs_error_rangecheck
                    else
                      match array_num_list ml 0 9 with
                      | .error e => .error e
                      | .ok _ => .ok ()
                  | none => .ok ()
                match mRes with
                | .error e => ⟨e, none, st⟩
                | .ok _ => ⟨0, some (.cal 3), st⟩

/-- Embedding of pdfi_create_iccbased (pdf_colour.c:995-1166).  The second
array entry must be a stream dictionary with an integer N; the profile
construction and the provisional test render on an N mismatch are the
ICC-engine oracles.  On failure the fallback tries a Name-typed Alternate
through create_colorspace_by_name (note the unbraced `if` at line 1114:
the countdown and the `code == 0` test run unconditionally), then a bare
device space chosen by N; an N outside 1/3/4 is gs_error_undefined. -/
def create_iccbased_body (env : REnv) (recN : String → RState → Res)
    (ca : List PdfObj) (index : Nat) (st : RState) : Res :=
  match array_get_type ca (index + 1) .tdict with
  | .error e => ⟨e, none, st⟩
  | .ok o =>
    match o with
    | .dict entries sdata =>
      if sdata.isNone then ⟨gs_error_undefined, none, st⟩
      else
        match dict_get_int entries "N" with
        | .error e => ⟨e, none, st⟩
        | .ok N =>
          let code0 := env.icc_profile_code
          let iccN := env.icc_profile_N
          let code1 := if 0 ≤ code0 ∧ N ≠ (iccN : Int) then env.icc_testrender_code else code0
          if code1 < 0 then
            let fb : Int × Option CS × RState :=
              match dict_knownget entries "Alternate" with
              | some (.name s) =>
                let r := recN s st
                (r.code, r.cs, r.st)
              | some _ => (code1, none, st)
              | none => (code1, none, st)
            if fb.1 = 0 then ⟨0, fb.2.1, fb.2.2⟩
            else
              -- device space by declared N (pdf_colour.c:1124-1143)
              if N = 1 then ⟨0, some .deviceGray, fb.2.2⟩
              else if N = 3 then ⟨0, some .deviceRGB, fb.2.2⟩
              else if N = 4 then ⟨0, some .deviceCMYK, fb.2.2⟩
              else ⟨gs_error_undefined, none, fb.2.2⟩
          else
            -- success: the space carries the profile's component count
            -- (pdfi_create_icc sets num_comps to the profile-expected count
            -- when it is nonzero, else keeps the declared N)
            let comps := if iccN ≠ 0 then iccN else N.toNat
            ⟨0, some (.iccBased comps), st⟩
    | _ => ⟨gs_error_typecheck, none, st⟩

/-- The alternate-space dispatch shared by Separation and DeviceN
(pdf_colour.c:1525-1542 and 1619-1636): a Name goes through
create_colorspace_by_name, an array through create_colorspace_by_array,
anything else is a typecheck failure. -/
def resolve_alternate (recN : String → RState → Res)
    (recA : List PdfObj → Nat → RState → Res) (o : PdfObj) (st : RState) : Res :=
  match o with
  | .name s => recN s st
  | .arr es => recA es 0 st
  | _ => ⟨gs_error_typecheck, none, st⟩

/-- Embedding of pdfi_create_Separation (pdf_colour.c:1500-1598): an ink
name, an alternate space resolved by name or by array, and a
tint-transform function dictionary built by the external evaluator. -/
def create_Separation_body (env : REnv) (recN : String → RState → Res)
    (recA : List PdfObj → Nat → RState → Res)
    (ca : List PdfObj) (index : Nat) (st : RState) : Res :=
  match array_get_type ca (index + 1) .tname with
  | .error e => ⟨e, none, st⟩
  | .ok _ =>
    match array_get ca (index + 2) with
    | .error e => ⟨e, none, st⟩
    | .ok o =>
      let alt := resolve_alternate recN recA o st
      if alt.code < 0 then ⟨alt.code, none, alt.st⟩
      else
        match alt.cs with
        | none => ⟨gs_error_unknownerror, none, alt.st⟩
        | some pcs_alt =>
          match array_get_type ca (index + 3) .tdict with
          | .error e => ⟨e, none, alt.st⟩
          | .ok _ =>
            if env.build_function_code < 0 then ⟨env.build_function_code, none, alt.st⟩
            else ⟨0, some (.separation pcs_alt), alt.st⟩

/-- The DeviceN ink-name extraction loop (pdf_colour.c:1678-1690): every
ink must be a name. -/
def devn_ink_names : List PdfObj → Except Int (List String)
  | [] => .ok []
  | .name s :: rest =>
    match devn_ink_names rest with
    | .error e => .error e
    | .ok ss => .ok (s :: ss)
  | _ :: _ => .error gs_error_typecheck

/-- The Process Components check (pdf_colour.c:1760-1783): every component
must be a name or a string.  (On a violation the source jumps to the error
label with the array accessor's code, which is 0 at that point; the body
below reproduces that code-0 error exit.) -/
def devn_components_all_named (l : List PdfObj) : Bool :=
  l.all (fun o => o.typeOf = .tname ∨ o.typeOf = .tstring)

/-- The Colorants iteration (pdf_colour.c:1791-1849): each value must be a
string, name or array and is resolved through pdfi_create_colorspace
(dictionary keys are names by construction in this model). -/
def colorants_loop (recC : PdfObj → RState → Res) :
    List (String × PdfObj) → RState → Int × RState
  | [], st => (0, st)
  | (_, space) :: rest, st =>
    if space.typeOf = .tstring ∨ space.typeOf = .tname ∨ space.typeOf = .tarr then
      let r := recC space st
      if r.code < 0 then (r.code, r.st)
      else colorants_loop recC rest r.st
    else (gs_error_typecheck, st)

/-- The Subtype handling of the DeviceN attributes dictionary
(pdf_colour.c:1705-1728): absent means DeviceN; a name or string matching
DeviceN or NChannel as a byte-prefix (memcmp of 7 / 8 bytes) is accepted;
anything else leaks the knownget code (1) through the error label. -/
def devn_subtype_code (attrs : List (String × PdfObj)) : Int :=
  match dict_knownget attrs "Subtype" with
  | none => 0
  | some (.name s) =>
    if (name_bytes "DeviceN").isPrefixOf (name_bytes s)
       ∨ (name_bytes "NChannel").isPrefixOf (name_bytes s) then 0
    else 1
  | some (.strg data) =>
    if (name_bytes "DeviceN").isPrefixOf data
       ∨ (name_bytes "NChannel").isPrefixOf data then 0
    else 1
  | some _ => 1

/-- The Process handling of the DeviceN attributes dictionary
(pdf_colour.c:1730-1785): its ColorSpace is resolved through
pdfi_create_colorspace and every Components entry must be a name or a
string.  `some code` means the source jumped to the pdfi_devicen_error
label with `code`; a non-name/string Components entry jumps with the
prevailing code, which is 0 at that point (lines 1777-1780), so the whole
construction returns 0 with no space produced. -/
def devn_process_body (recC : PdfObj → RState → Res)
    (p : List (String × PdfObj)) (st1 : RState) : Option Int × RState :=
  if p.isEmpty then (none, st1)
  else
    match dict_get p "ColorSpace" with
    | .error e => (some e, st1)
    | .ok csobj =>
      let r := recC csobj st1
      if r.code < 0 then (some r.code, r.st)
      else
        match dict_get_type p "Components" .tarr with
        | .error e => (some e, r.st)
        | .ok compsObj =>
          if devn_components_all_named (elems_of compsObj) then (none, r.st)
          else (some 0, r.st)

/-- The Colorants handling (pdf_colour.c:1787-1849): a failing iteration
jumps to the error label with its negative code. -/
def devn_colorants_body (recC : PdfObj → RState → Res)
    (c : List (String × PdfObj)) (st2 : RState) : Option Int × RState :=
  if c.isEmpty then (none, st2)
  else
    let r := colorants_loop recC c st2
    if r.1 < 0 then (some r.1, r.2) else (none, r.2)

/-- The attributes-dictionary pass of pdfi_create_DeviceN
(pdf_colour.c:1696-1850): Subtype, then Process, then Colorants.
`some code` is a jump to pdfi_devicen_error with that code (the Subtype
mismatch jumps with the knownget return 1, and one Process violation
jumps with 0, see above); `none` falls through to the normal exit. -/
def devn_attributes_body (env : REnv) (recC : PdfObj → RState → Res)
    (attrs : List (String × PdfObj)) (st1 : RState) : Option Int × RState :=
  let sc := devn_subtype_code attrs
  if sc ≠ 0 then (some sc, st1)
  else
    let pRes :=
      match dict_knownget_type attrs "Process" .tdict with
      | some pObj => devn_process_body recC (entries_of pObj) st1
      | none => (none, st1)
    match pRes.1 with
    | some c => (some c, pRes.2)
    | none =>
      match dict_knownget_type attrs "Colorants" .tdict with
      | some cObj => devn_colorants_body recC (entries_of cObj) pRes.2
      | none => (none, pRes.2)

/-- Embedding of pdfi_create_DeviceN (pdf_colour.c:1600-1882): alternate
space, tint transform, ink array (a single ink named All is rejected with
gs_error_undefined per lines 1655-1669), and the optional attributes
dictionary with Subtype / Process / Colorants handling. -/
def create_DeviceN_body (env : REnv) (recC : PdfObj → RState → Res)
    (recN : String → RState → Res) (recA : List PdfObj → Nat → RState → Res)
    (ca : List PdfObj) (index : Nat) (st : RState) : Res :=
  match array_get ca (index + 2) with
  | .error e => ⟨e, none, st⟩
  | .ok o =>
    let alt := resolve_alternate recN recA o st
    if alt.code < 0 then ⟨alt.code, none, alt.st⟩
    else
      match alt.cs with
      | none => ⟨gs_error_unknownerror, none, alt.st⟩
      | some pcs_alt =>
        let st1 := alt.st
        match array_get_type ca (index + 3) .tdict with
        | .error e => ⟨e, none, st1⟩
        | .ok _ =>
          if env.build_function_code < 0 then ⟨env.build_function_code, none, st1⟩
          else
            match array_get_type ca (index + 1) .tarr with
            | .error e => ⟨e, none, st1⟩
            | .ok inksObj =>
              let inks := elems_of inksObj
              let allCheck : Int :=
                if inks.length = 1 then
                  match array_get_type inks 0 .tname with
                  | .error e => e
                  | .ok (.name s) => if s = "All" then gs_error_undefined else 0
                  | .ok _ => 0
                else 0
              if allCheck < 0 then ⟨allCheck, none, st1⟩
              else
                match devn_ink_names inks with
                | .error e => ⟨e, none, st1⟩
                | .ok _ =>
                  if ca.length ≥ index + 5 then
                    match array_get_type ca (index + 4) .tdict with
                    | .error e => ⟨e, none, st1⟩
                    | .ok attrsObj =>
                      let aRes := devn_attributes_body env recC (entries_of attrsObj) st1
                      match aRes.1 with
                      | some c => ⟨c, none, aRes.2⟩
                      | none => ⟨0, some (.deviceN inks.length pcs_alt), aRes.2⟩
                  else ⟨0, some (.deviceN inks.length pcs_alt), st1⟩

/-- Embedding of pdfi_create_indexed (pdf_colour.c:1887-1990).  The high
value must be an integer in [0, 255] (else syntaxerror); the base space is
resolved through pdfi_create_colorspace; the lookup table may come from a
stream or, tolerated although spec-noncompliant, a raw string; the table
must hold at least (hival+1) * baseComponents bytes (else rangecheck, and
no space is constructed). -/
def create_indexed_body (env : REnv) (recC : PdfObj → RState → Res)
    (ca : List PdfObj) (index : Nat) (st : RState) : Res :=
  if index ≠ 0 then ⟨gs_error_syntaxerror, none, st⟩
  else
    match array_get_int ca (index + 2) with
    | .error e => ⟨e, none, st⟩
    | .ok hival =>
      if hival > 255 ∨ hival < 0 then ⟨gs_error_syntaxerror, none, st⟩
      else
        match array_get ca (index + 1) with
        | .error e => ⟨e, none, st⟩
        | .ok space =>
          let r := recC space st
          if r.code < 0 then ⟨r.code, none, r.st⟩
          else
            match r.cs with
            | none => ⟨gs_error_unknownerror, none, r.st⟩
            | some base =>
              match array_get ca (index + 3) with
              | .error e => ⟨e, none, r.st⟩
              | .ok lookup =>
                let bufE : Except Int (List Nat) :=
                  match lookup with
                  | .dict _ (some d) => .ok d
                  | .dict _ none => .error gs_error_typecheck
                  | .strg data => .ok data
                  | _ => .error gs_error_typecheck
                match bufE with
                | .error e => ⟨e, none, r.st⟩
                | .ok buf =>
                  let num_values : Int := (hival + 1) * (base.numComponents : Int)
                  if num_values > (buf.length : Int) then ⟨gs_error_rangecheck, none, r.st⟩
                  else
                    let cs :=
                      if env.device_named ∧ base.is_sep_or_devn then
                        CS.indexedNamed base hival.toNat buf
                      else CS.indexed base hival.toNat buf
                    ⟨0, some cs, r.st⟩

/-- Embedding of pdfi_create_colorspace_by_array (pdf_colour.c:2062-2140):
dispatch on the array's first name.  Short inline aliases outside an
inline image raise the warning and, under PDFSTOPONWARNING, a
syntaxerror.  An unrecognized name is looked up as a ColorSpace resource
which must be an array and is resolved by direct recursion. -/
def by_array_body (env : REnv) (recC : PdfObj → RState → Res)
    (recN : String → RState → Res) (recA : List PdfObj → Nat → RState → Res)
    (ca : List PdfObj) (index : Nat) (inline_image : Bool) (st : RState) : Res :=
  match array_get_type ca index .tname with
  | .error e => ⟨e, none, st⟩
  | .ok (.name s) =>
    if s = "G" ∨ s = "DeviceGray" then
      if s = "G" ∧ ¬inline_image ∧ env.pdfstoponwarning then ⟨gs_error_syntaxerror, none, st⟩
      else ⟨0, some .deviceGray, st⟩
    else if s = "I" ∨ s = "Indexed" then
      if s = "I" ∧ ¬inline_image ∧ env.pdfstoponwarning then ⟨gs_error_syntaxerror, none, st⟩
      else create_indexed_body env recC ca index st
    else if s = "Lab" then create_Lab_body env ca index st
    else if s = "RGB" ∨ s = "DeviceRGB" then
      if s = "RGB" ∧ ¬inline_image ∧ env.pdfstoponwarning then ⟨gs_error_syntaxerror, none, st⟩
      else ⟨0, some .deviceRGB, st⟩
    else if s = "CMYK" ∨ s = "DeviceCMYK" then
      if s = "CMYK" ∧ ¬inline_image ∧ env.pdfstoponwarning then ⟨gs_error_syntaxerror, none, st⟩
      else ⟨0, some .deviceCMYK, st⟩
    else if s = "CalRGB" then create_CalRGB_body env ca index st
    else if s = "CalGray" then create_CalGray_body env ca index st
    else if s = "Pattern" then
      if index ≠ 0 then ⟨gs_error_syntaxerror, none, st⟩
      else if env.pattern_code < 0 then ⟨env.pattern_code, none, st⟩
      else ⟨0, some .pattern, st⟩
    else if s = "DeviceN" then create_DeviceN_body env recC recN recA ca index st
    else if s = "ICCBased" then create_iccbased_body env recN ca index st
    else if s = "Separation" then create_Separation_body env recN recA ca index st
    else
      match env.resources s with
      | none => ⟨gs_error_undefined, none, st⟩
      | some a =>
        match a with
        | .arr es => recA es 0 st
        | _ => ⟨gs_error_typecheck, none, st⟩
  | .ok _ => ⟨gs_error_typecheck, none, st⟩

/-- Embedding of pdfi_create_colorspace_by_name (pdf_colour.c:2142-2188):
device aliases (with the inline-alias warning policy), Pattern, and
otherwise a ColorSpace resource lookup resolved through
pdfi_create_colorspace. -/
def by_name_body (env : REnv) (recC : PdfObj → RState → Res)
    (nm : String) (inline_image : Bool) (st : RState) : Res :=
  if nm = "G" ∨ nm = "DeviceGray" then
    if nm = "G" ∧ ¬inline_image ∧ env.pdfstoponwarning then ⟨gs_error_syntaxerror, none, st⟩
    else ⟨0, some .deviceGray, st⟩
  else if nm = "RGB" ∨ nm = "DeviceRGB" then
    if nm = "RGB" ∧ ¬inline_image ∧ env.pdfstoponwarning then ⟨gs_error_syntaxerror, none, st⟩
    else ⟨0, some .deviceRGB, st⟩
  else if nm = "CMYK" ∨ nm = "DeviceCMYK" then
    if nm = "CMYK" ∧ ¬inline_image ∧ env.pdfstoponwarning then ⟨gs_error_syntaxerror, none, st⟩
    else ⟨0, some .deviceCMYK, st⟩
  else if nm = "Pattern" then
    if env.pattern_code < 0 then ⟨env.pattern_code, none, st⟩
    else ⟨0, some .pattern, st⟩
  else
    match env.resources nm with
    | none => ⟨gs_error_undefined, none, st⟩
    | some ref => recC ref st

/-- Call tags for the mutually recursive resolver entry points. -/
inductive RCall where
  | cspace (obj : PdfObj)
  | byName (nm : String)
  | byArray (es : List PdfObj) (index : Nat)

/-- Fuel-indexed wiring of the resolver family.  The cspace branch is
pdfi_create_colorspace (pdf_colour.c:2282-2305): it pushes a loop-detector
mark on entry and clears back to it on all three exits (name dispatch,
array dispatch, and the typecheck for any other descriptor type); the
install_cspace call at line 2300 is external and its code is ignored. -/
def resolve : Nat → REnv → Bool → RCall → RState → Res
  | 0, _, _, _, st => ⟨gs_error_limitcheck, none, st⟩
  | fuel + 1, env, inline_image, call, st =>
    match call with
    | .cspace obj =>
      let st1 := loop_mark st
      match obj with
      | .name n =>
        let r := resolve fuel env inline_image (.byName n) st1
        ⟨r.code, r.cs, loop_cleartomark r.st⟩
      | .arr es =>
        let r := resolve fuel env inline_image (.byArray es 0) st1
        ⟨r.code, r.cs, loop_cleartomark r.st⟩
      | _ => ⟨gs_error_typecheck, none, loop_cleartomark st1⟩
    | .byName nm =>
      by_name_body env (fun o s => resolve fuel env inline_image (.cspace o) s) nm inline_image st
    | .byArray es index =>
      by_array_body env
        (fun o s => resolve fuel env inline_image (.cspace o) s)
        (fun n s => resolve fuel env inline_image (.byName n) s)
        (fun es2 i s => resolve fuel env inline_image (.byArray es2 i) s)
        es index inline_image st

/-- Top entry point, pdfi_create_colorspace. -/
def pdfi_create_colorspace (fuel : Nat) (env : REnv) (inline_image : Bool)
    (obj : PdfObj) (st : RState) : Res :=
  resolve fuel env inline_image (.cspace obj) st

/-! Spot-colour scanner (pdf_colour.c:50-261).  The accumulated spot set is
the page-level spot dict, modelled as a finite set of ink names (values
are placeholder markers in the source); the loop detector state is
threaded exactly as in the resolver. -/

structure SpotSt where
  depth : Nat
  spots : Finset String
deriving DecidableEq

def smark (st : SpotSt) : SpotSt := { st with depth := st.depth + 1 }

def sclear (st : SpotSt) : SpotSt := { st with depth := st.depth - 1 }

/-- Union of a spot-state's accumulated set with a further set, used to
state how the scanner commutes with enlarging the target spot dict. -/
def sunion (st : SpotSt) (t : Finset String) : SpotSt :=
  { st with spots := st.spots ∪ t }

/-- External context of the scanner: resource resolution and the presence
of the caller's spot dict. -/
structure SEnv where
  resources : String → Option PdfObj
  has_spot_dict : Bool

/-- The six reserved ink names of pdf_colour.c:162-164 and 199-201. -/
def reserved_ink_names : List String := ["Cyan", "Magenta", "Yellow", "Black", "None", "All"]

/-- Guarded insertion into the spot set: pdfi_dict_known_by_key followed by
pdfi_dict_put_obj of a placeholder (pdf_colour.c:170-187 and 203-211). -/
def spot_insert (nm : String) (st : SpotSt) : SpotSt :=
  if nm ∈ st.spots then st else { st with spots := insert nm st.spots }

/-- The DeviceN ink loop (pdf_colour.c:157-188): each ink must be a name;
reserved names are skipped, known names are skipped, new names are
inserted with a placeholder value. -/
def spots_devn_loop : List PdfObj → SpotSt → Int × SpotSt
  | [], st => (0, st)
  | .name s :: rest, st =>
    if s ∈ reserved_ink_names then spots_devn_loop rest st
    else spots_devn_loop rest (spot_insert s st)
  | _ :: _, st => (gs_error_typecheck, st)

/-- Embedding of pdfi_check_for_spots_by_array (pdf_colour.c:82-234). -/
def spots_by_array_body (env : SEnv) (recCheck : PdfObj → SpotSt → Int × SpotSt)
    (recArr : List PdfObj → SpotSt → Int × SpotSt)
    (ca : List PdfObj) (st : SpotSt) : Int × SpotSt :=
  if ¬env.has_spot_dict then (0, st)
  else
    match array_get_type ca 0 .tname with
    | .error e => (e, st)
    | .ok (.name s) =>
      if s = "G" then (0, st)
      else if s = "I" ∨ s = "Indexed" then
        match array_get ca 1 with
        | .error e => (e, st)
        | .ok base => recCheck base st
      else if s = "Pattern" then
        if ca.length = 1 then (0, st)
        else if ca.length ≠ 2 then (0, st)
        else
          match array_get ca 1 with
          | .error e => (e, st)
          | .ok base => recCheck base st
      else if s = "Lab" ∨ s = "RGB" ∨ s = "CMYK" ∨ s = "CalRGB" ∨ s = "CalGray"
              ∨ s = "ICCBased" ∨ s = "DeviceRGB" ∨ s = "DeviceGray" ∨ s = "DeviceCMYK" then
        (0, st)
      else if s = "DeviceN" then
        match array_get_type ca 1 .tarr with
        | .error e => (e, st)
        | .ok inksObj => spots_devn_loop (elems_of inksObj) st
      else if s = "Separation" then
        match array_get_type ca 1 .tname with
        | .error e => (e, st)
        | .ok (.name ink) =>
          if ink ∈ reserved_ink_names then (0, st)
          else (0, spot_insert ink st)
        | .ok _ => (gs_error_typecheck, st)
      else
        match env.resources s with
        | none => (gs_error_undefined, st)
        | some a =>
          match a with
          | .arr es => recArr es st
          | _ => (gs_error_typecheck, st)
    | .ok _ => (gs_error_typecheck, st)

/-- Embedding of pdfi_check_for_spots_by_name (pdf_colour.c:50-80): device
aliases and Pattern contribute nothing; any other name is resolved as a
ColorSpace resource and re-scanned through the top entry point. -/
def spots_by_name_body (env : SEnv) (recCheck : PdfObj → SpotSt → Int × SpotSt)
    (nm : String) (st : SpotSt) : Int × SpotSt :=
  if nm = "G" ∨ nm = "RGB" ∨ nm = "CMYK" ∨ nm = "DeviceRGB" ∨ nm = "DeviceGray"
     ∨ nm = "DeviceCMYK" ∨ nm = "Pattern" then
    (0, st)
  else
    match env.resources nm with
    | none => (gs_error_undefined, st)
    | some ref => recCheck ref st

/-- Embedding of pdfi_check_ColorSpace_for_spots (pdf_colour.c:236-261):
no-op without a spot dict; otherwise a loop-detector mark on entry and a
clear-to-mark on each of the three exits (name dispatch, array dispatch,
and the silent success for any other descriptor type). -/
def spots_check_body (env : SEnv) (recName : String → SpotSt → Int × SpotSt)
    (recArrTop : List PdfObj → SpotSt → Int × SpotSt)
    (obj : PdfObj) (st : SpotSt) : Int × SpotSt :=
  if ¬env.has_spot_dict then (0, st)
  else
    let st1 := smark st
    match obj with
    | .name n =>
      let r := recName n st1
      (r.1, sclear r.2)
    | .arr es =>
      let r := recArrTop es st1
      (r.1, sclear r.2)
    | _ => (0, sclear st1)

/-- Call tags for the mutually recursive scanner entry points. -/
inductive SCall where
  | check (obj : PdfObj)
  | byName (nm : String)
  | byArray (es : List PdfObj)

/-- Fuel-indexed wiring of the spot-scanner family. -/
def spotscan : Nat → SEnv → SCall → SpotSt → Int × SpotSt
  | 0, _, _, st => (gs_error_limitcheck, st)
  | fuel + 1, env, call, st =>
    match call with
    | .check obj =>
      spots_check_body env (fun n s => spotscan fuel env (.byName n) s)
        (fun es s => spotscan fuel env (.byArray es) s) obj st
    | .byName nm =>
      spots_by_name_body env (fun o s => spotscan fuel env (.check o) s) nm st
    | .byArray es =>
      spots_by_array_body env (fun o s => spotscan fuel env (.check o) s)
        (fun es2 s => spotscan fuel env (.byArray es2) s) es st

/-- Top entry point, pdfi_check_ColorSpace_for_spots. -/
def pdfi_check_ColorSpace_for_spots (fuel : Nat) (env : SEnv) (obj : PdfObj)
    (st : SpotSt) : Int × SpotSt :=
  spotscan fuel env (.check obj) st

/-! Calibrated-space profile cache (claim C8).  pdfi_seticc_cal
(pdf_colour.c:1254-1311) probes the graphics-state profile cache by the
descriptor's dict key; the cache primitives gsicc_find_cs / gsicc_add_cs
are repository code outside src/ and are modelled from the spec: a
key-to-colour-space map with lookup and insert.  Colour spaces and their
ICC profiles are identified by ids; `rc` tracks reference counts. -/

structure CalCacheState where
  cache : Nat → Option Nat
  rc : Nat → Nat
  profileOf : Nat → Nat
  ranges : Nat → List (ℚ × ℚ)
  nextId : Nat

/-- Modelled from the spec: gsicc_find_cs, the profile-cache probe. -/
def gsicc_find_cs (st : CalCacheState) (dictkey : Nat) : Option Nat := st.cache dictkey

/-- Embedding of pdfi_seticc_cal (pdf_colour.c:1254-1311).  On a cache miss
it builds a colour space, synthesizes an ICC profile from the calibration
parameters, assigns the default range [0,1] per channel and adds the space
to the cache under `dictkey`; on a hit it returns a new reference to the
cached space, incrementing its reference count (rc_adjust_only at line
1300), without synthesizing anything. -/
def pdfi_seticc_cal (st : CalCacheState) (num_colorants : Nat) (dictkey : Nat) :
    Nat × CalCacheState :=
  match gsicc_find_cs st dictkey with
  | none =>
    let id := st.nextId
    (id, { cache := fun k => if k = dictkey then some id else st.cache k,
           rc := fun i => if i = id then 1 else st.rc i,
           profileOf := fun i => if i = id then id else st.profileOf i,
           ranges := fun i => if i = id then List.replicate num_colorants (0, 1) else st.ranges i,
           nextId := st.nextId + 1 })
  | some id =>
    (id, { st with rc := fun i => if i = id then st.rc i + 1 else st.rc i })

/-- The tail call of pdfi_create_CalGray (pdf_colour.c:1390): the cache key
is the originating descriptor array's object number, with one colorant. -/
def pdfi_create_CalGray_cached (st : CalCacheState) (object_num : Nat) :
    Nat × CalCacheState :=
  pdfi_seticc_cal st 1 object_num

/-- The tail call of pdfi_create_CalRGB (pdf_colour.c:1492): three
colorants, keyed the same way. -/
def pdfi_create_CalRGB_cached (st : CalCacheState) (object_num : Nat) :
    Nat × CalCacheState :=
  pdfi_seticc_cal st 3 object_num

/-! Image pipeline (pdfi_do_image, pdf_image.c:1294-1590).  The pipeline is
a single linear pass whose steps are calls into collaborators; each step's
outcome is an oracle field of `ImgEnv`, and a negative code sends control
to the cleanupExit label.  The Mask payload and the BPC are concrete,
since the Type-4 setup (claim C4) is embedded in full. -/

/-- The four renderable image shapes set up at pdf_image.c:1461-1503
(`t1mask` is the ImageMask initialization at line 1467, `t1plain` the
pcs-carrying initialization used directly and as the Type-3x / Type-4
setup-failure fallback). -/
inductive IVariant where
  | t1mask | t1plain | t3 | t3x | t4
deriving Repr, DecidableEq

/-- The type of the image dictionary's Mask entry (pdf_image.c:1437-1448). -/
inductive MaskKind where
  | marray (entries : List MaskEntry)
  | mdict
  | mother
deriving Repr, DecidableEq

/-- Oracle environment for one pdfi_do_image run: dictionary facts and
collaborator outcome codes, in pipeline order. -/
structure ImgEnv where
  inline_image : Bool
  abbrev_key_present : Bool
  pdfstoponwarning : Bool
  get_info_code : Int
  oc_off : Bool
  has_OC : Bool
  oc_visible : Bool
  alt_found : Bool
  alt_info_code : Int
  colorspace_present : Bool
  image_mask : Bool
  is_JPXDecode : Bool
  bpc : Nat
  scan_code : Int
  get_color_code : Int
  cs_resolved : CS
  setcs_code : Int
  page_has_transparency : Bool
  smask_in_data : Int
  make_smask_code : Int
  smask_present : Bool
  preserve_smask : Bool
  smask_render_code : Int
  group_code : Int
  igs_smask : Bool
  mask : Option MaskKind
  mask_info_code : Int
  smask_info_code : Int
  t3x_setup_code : Int
  t3_params_code : Int
  data_params_code : Int
  mask_buffer_code : Int
  filter_code : Int
  trans_setup_code : Int
  render_code : Int
  trans_teardown_code : Int

/-- Embedding of the observable outputs of pdfi_image_get_color
(pdf_image.c:1092-1207): an ImageMask image short-circuits to one
component and no colour-space object (lines 1101-1105); otherwise the
ColorSpace / JPX colour synthesis is an oracle (its construction is
embedded in detail as pdfi_create_colorspace) and the component count
comes from the resolved space. -/
def pdfi_image_get_color (image_mask : Bool) (code_rest : Int) (cs : CS) :
    Int × Nat × Option CS :=
  if image_mask then (0, 1, none)
  else if code_rest < 0 then (code_rest, 0, none)
  else (0, cs.numComponents, some cs)

/-- The JPXDecode prescan dispatch of pdfi_do_image (pdf_image.c:1375-1382)
as a function of the scan's return code: `none` means the image is
abandoned (goto cleanupExit, taken only when the filter was explicitly
JPXDecode and the scan failed), `some b` means processing continues with
is_JPXDecode set to `b` (a successful speculative scan reclassifies the
image as JPXDecode; a failed speculative scan is swallowed and leaves the
classification as it was). -/
def jpx_prescan_dispatch (is_jpx maybe_jpx : Bool) (scan_code : Int) : Option Bool :=
  if scan_code < 0 ∧ is_jpx then none
  else some (if scan_code = 0 ∧ maybe_jpx then true else is_jpx)

/-- Observable result of one pdfi_do_image run. -/
structure ImgResult where
  ret : Int
  pipeline_code : Int
  warn_image_error : Bool
  variant : Option IVariant
  jpx_final : Bool
  comps : Nat
  pcs : Option CS

/-- The pipeline body of pdfi_do_image from info extraction to the value of
`code` reaching cleanupExit (pdf_image.c:1339-1555), together with the
image variant set up, the final JPXDecode classification, and the colour
resolution outputs.  Error exits carry `variant = none` (the image was
abandoned before a renderable shape was completed). -/
def run_pipeline (env : ImgEnv) : Int × Option IVariant × Bool × Nat × Option CS :=
  if env.get_info_code < 0 then (env.get_info_code, none, env.is_JPXDecode, 0, none)
  else if env.oc_off then (0, none, env.is_JPXDecode, 0, none)
  else if env.has_OC ∧ ¬env.oc_visible then (0, none, env.is_JPXDecode, 0, none)
  else
    let code_alt := if env.alt_found then env.alt_info_code else 0
    if code_alt < 0 then (code_alt, none, env.is_JPXDecode, 0, none)
    else
      -- JPXDecode pre-scan dispatch (pdf_image.c:1370-1382)
      let maybe_jpx := !env.colorspace_present && !env.image_mask
      let do_scan := (maybe_jpx || env.is_JPXDecode) && !env.inline_image
      let disp := if do_scan then jpx_prescan_dispatch env.is_JPXDecode maybe_jpx env.scan_code
                  else some env.is_JPXDecode
      match disp with
      | none => (env.scan_code, none, env.is_JPXDecode, 0, none)
      | some jpx =>
        -- rendering intent errors are ignored (pdf_image.c:1385-1394)
        let gc := pdfi_image_get_color env.image_mask env.get_color_code env.cs_resolved
        if gc.1 < 0 then (gc.1, none, jpx, 0, none)
        else
          let comps := gc.2.1
          let pcs := gc.2.2
          let setc := if pcs.isSome then env.setcs_code else 0
          if setc < 0 then (setc, none, jpx, comps, pcs)
          else
            let mk_sm := env.page_has_transparency ∧ jpx ∧ env.smask_in_data ≠ 0
            let mkc := if mk_sm then env.make_smask_code else 0
            if mkc < 0 then (mkc, none, jpx, comps, pcs)
            else
              let smask := env.smask_present ∨ mk_sm
              -- transparency group brackets (pdf_image.c:1415-1434)
              let tcode : Int :=
                if env.page_has_transparency ∧ smask then
                  if ¬env.preserve_smask ∧ env.smask_render_code < 0 then env.smask_render_code
                  else env.group_code
                else if env.igs_smask then env.group_code
                else 0
              if tcode < 0 then (tcode, none, jpx, comps, pcs)
              else
                -- Mask acquisition (pdf_image.c:1437-1449)
                let mask_array : Option (List MaskEntry) :=
                  if ¬smask then
                    match env.mask with
                    | some (.marray es) => some es
                    | _ => none
                  else none
                let mask_dict := ¬smask ∧ env.mask = some .mdict
                let mcode : Int :=
                  if ¬smask then
                    match env.mask with
                    | some (.marray _) => 0
                    | some .mdict => env.mask_info_code
                    | some .mother => gs_error_typecheck
                    | none => 0
                  else 0
                if mcode < 0 then (mcode, none, jpx, comps, pcs)
                else
                  let smask_dict := smask ∧ env.preserve_smask
                  let scode := if smask_dict then env.smask_info_code else 0
                  if scode < 0 then (scode, none, jpx, comps, pcs)
                  else
                    -- variant selection (pdf_image.c:1461-1503)
                    let bpc := env.bpc
                    let indexed_case :=
                      (match pcs with
                       | some (.indexed _ _ _) => true
                       | _ => false) && bpc == 1
                    let sel : Int × IVariant :=
                      if env.mask = none ∧ ¬smask_dict then
                        (0, if env.image_mask then .t1mask else .t1plain)
                      else if smask_dict then
                        if env.t3x_setup_code < 0 then (0, .t1plain) else (0, .t3x)
                      else
                        match mask_array with
                        | some entries =>
                          if (pdfi_image_setup_type4 bpc indexed_case entries).code < 0 then
                            (0, .t1plain)
                          else (0, .t4)
                        | none => (env.t3_params_code, .t3)
                    if sel.1 < 0 then (sel.1, none, jpx, comps, pcs)
                    else
                      let variant := sel.2
                      if env.data_params_code < 0 then (env.data_params_code, none, jpx, comps, pcs)
                      else
                        let bufc := if mask_dict ∨ smask_dict then env.mask_buffer_code else 0
                        if bufc < 0 then (bufc, none, jpx, comps, pcs)
                        else if env.filter_code < 0 then (env.filter_code, none, jpx, comps, pcs)
                        else if env.trans_setup_code < 0 then (env.trans_setup_code, none, jpx, comps, pcs)
                        else
                          -- render, then teardown (pdf_image.c:1545-1555)
                          let final := if env.render_code = 0 then env.trans_teardown_code
                                       else env.render_code
                          (final, some variant, jpx, comps, pcs)

/-- Embedding of pdfi_do_image (pdf_image.c:1294-1590).  The only return
before the pipeline is the abbreviated-inline-key check (lines 1326-1334,
an error only for a non-inline image under PDFSTOPONWARNING).  At
cleanupExit (lines 1557-1561) a negative pipeline code records
W_PDF_IMAGE_ERROR and `code = 0` suppresses the error, so the function
returns 0. -/
def pdfi_do_image (env : ImgEnv) : ImgResult :=
  if ¬env.inline_image ∧ env.abbrev_key_present ∧ env.pdfstoponwarning then
    ⟨gs_error_syntaxerror, gs_error_syntaxerror, false, none, env.is_JPXDecode, 0, none⟩
  else
    let p := run_pipeline env
    ⟨0, p.1, p.1 < 0, p.2.1, p.2.2.1, p.2.2.2.1, p.2.2.2.2⟩

/-! Colour state operators (pdf_colour.c:303-787).  The graphics colour
state keeps a fill half and a stroke half; gs_swapcolors_quick exchanges
them, and the pdfi wrappers operate on the fill (current) half. -/

/-- One half of the graphics colour state: the installed space, the colour
component vector, and an attached pattern instance when any. -/
structure HalfColor where
  space : CS
  color : List ℚ
  patternId : Option Nat
deriving Repr, DecidableEq

structure ColorGS where
  fill : HalfColor
  stroke : HalfColor
  inside_CharProc : Bool
  CharProc_is_d1 : Bool
deriving Repr, DecidableEq

/-- Operator context: graphics state, operand stack (head = stack top), and
the collaborator oracles of the scn pattern path. -/
structure OpCtx where
  gs : ColorGS
  stack : List PdfObj
  pdfstoponerror : Bool
  pattern_set_code : Int
  pattern_uses_base : Bool
  pattern_base : Option CS
  pattern_id : Nat

def gs_swapcolors_quick (g : ColorGS) : ColorGS :=
  { g with fill := g.stroke, stroke := g.fill }

/-- pdfi_gs_setgray / setrgbcolor / setcmykcolor (pdf_colour.c:303-331):
ignored inside a d1 CharProc, otherwise installs the implicit device space
and colour into the fill half (pdfi_color_cleanup releases attached
resources of the outgoing space; resource release is not observable in
this state model). -/
def pdfi_gs_setdevcolor (cs : CS) (vals : List ℚ) (g : ColorGS) : ColorGS :=
  if g.inside_CharProc ∧ g.CharProc_is_d1 then g
  else { g with fill := ⟨cs, vals, none⟩ }

def is_num_obj : PdfObj → Bool
  | .intg _ => true
  | .real _ => true
  | _ => false

def num_val : PdfObj → ℚ
  | .intg n => (n : ℚ)
  | .real q => q
  | _ => 0

/-- Embedding of pdfi_setgraystroke (pdf_colour.c:344-378), the G operator:
pop one number; around the fill-oriented set, swap the colour halves and
swap back. -/
def pdfi_setgraystroke (c : OpCtx) : Int × OpCtx :=
  if c.stack.length < 1 then
    if c.pdfstoponerror then (gs_error_stackunderflow, c) else (0, c)
  else
    match c.stack.head? with
    | some o =>
      if is_num_obj o then
        let g1 := gs_swapcolors_quick c.gs
        let g2 := pdfi_gs_setdevcolor .deviceGray [num_val o] g1
        let g3 := gs_swapcolors_quick g2
        (0, { c with gs := g3, stack := c.stack.drop 1 })
      else
        let c1 := { c with stack := c.stack.drop 1 }
        if c.pdfstoponerror then (gs_error_typecheck, c1) else (0, c1)
    | none => (0, c)

/-- Embedding of pdfi_setrgbstroke (pdf_colour.c:414-451), the RG
operator. -/
def pdfi_setrgbstroke (c : OpCtx) : Int × OpCtx :=
  if c.stack.length < 3 then
    let c1 := { c with stack := [] }
    if c.pdfstoponerror then (gs_error_stackunderflow, c1) else (0, c1)
  else
    let ops := c.stack.take 3
    if ops.all is_num_obj then
      let g1 := gs_swapcolors_quick c.gs
      let g2 := pdfi_gs_setdevcolor .deviceRGB (ops.reverse.map num_val) g1
      let g3 := gs_swapcolors_quick g2
      (0, { c with gs := g3, stack := c.stack.drop 3 })
    else
      let c1 := { c with stack := c.stack.drop 3 }
      if c.pdfstoponerror then (gs_error_typecheck, c1) else (0, c1)

/-- Embedding of pdfi_setcmykstroke (pdf_colour.c:522-559), the K
operator. -/
def pdfi_setcmykstroke (c : OpCtx) : Int × OpCtx :=
  if c.stack.length < 4 then
    let c1 := { c with stack := [] }
    if c.pdfstoponerror then (gs_error_stackunderflow, c1) else (0, c1)
  else
    let ops := c.stack.take 4
    if ops.all is_num_obj then
      let g1 := gs_swapcolors_quick c.gs
      let g2 := pdfi_gs_setdevcolor .deviceCMYK (ops.reverse.map num_val) g1
      let g3 := gs_swapcolors_quick g2
      (0, { c with gs := g3, stack := c.stack.drop 4 })
    else
      let c1 := { c with stack := c.stack.drop 4 }
      if c.pdfstoponerror then (gs_error_typecheck, c1) else (0, c1)

/-- pdfi_get_color_from_stack (pdf_colour.c:636-661): pop exactly ncomps
numbers into a client colour; on underflow or a non-number the stack is
cleared entirely. -/
def pdfi_get_color_from_stack (stack : List PdfObj) (ncomps : Nat) :
    Int × Option (List ℚ) × List PdfObj :=
  if stack.length < ncomps then (gs_error_stackunderflow, none, [])
  else
    let ops := stack.take ncomps
    if ops.all is_num_obj then (0, some (ops.reverse.map num_val), stack.drop ncomps)
    else (gs_error_typecheck, none, [])

/-- Embedding of pdfi_setstrokecolor (pdf_colour.c:671-688), the SC
operator: swap, read componentCount(current space) operands, set the
colour with a direct gs_setcolor (line 682, unconditional — no CharProc
guard), swap back — the swap-back is on the straight-line path covering
success and failure alike. -/
def pdfi_setstrokecolor (c : OpCtx) : Int × OpCtx :=
  let g1 := gs_swapcolors_quick c.gs
  let ncomps := g1.fill.space.numComponents
  let r := pdfi_get_color_from_stack c.stack ncomps
  let g2 :=
    match r.2.1 with
    | some vals => { g1 with fill := { g1.fill with color := vals } }
    | none => g1
  let g3 := gs_swapcolors_quick g2
  let c1 := { c with gs := g3, stack := r.2.2 }
  if r.1 < 0 ∧ c.pdfstoponerror then (r.1, c1) else (0, c1)

/-- Embedding of pdfi_setcolorN (pdf_colour.c:716-787), the scn / SCN
operators (`is_fill = false` is SCN).  For a Pattern current space the
top operand must be a name, the pattern subsystem resolves it (a failure
is swallowed with the bad-pattern warning, leaving the colour unset), and
base-space components are popped only when the pattern uses an underlying
space; every exit path goes through cleanupExit, which undoes the
entry swap. -/
def pdfi_setcolorN (c : OpCtx) (is_fill : Bool) : Int × OpCtx :=
  let g0 := if is_fill then c.gs else gs_swapcolors_quick c.gs
  let finish : Int × ColorGS × List PdfObj → Int × OpCtx := fun r =>
    let gout := if is_fill then r.2.1 else gs_swapcolors_quick r.2.1
    (r.1, { c with gs := gout, stack := r.2.2 })
  let pcs := g0.fill.space
  if c.stack.length < 1 then finish (gs_error_stackunderflow, g0, c.stack)
  else
    let is_pattern := pcs = .pattern
    if is_pattern then
      if (c.stack.head?.map PdfObj.typeOf) ≠ some .tname then
        finish (gs_error_syntaxerror, g0, [])
      else
        let stack1 := c.stack.drop 1
        if c.pattern_set_code < 0 then
          -- W_PDF_BADPATTERN; error swallowed, colour left unset
          finish (0, g0, stack1)
        else
          let ncomps :=
            match c.pattern_base with
            | some b => if c.pattern_uses_base then b.numComponents else 0
            | none => 0
          if ncomps > 0 then
            let r := pdfi_get_color_from_stack stack1 ncomps
            match r.2.1 with
            | some vals =>
              finish (0, { g0 with fill := { g0.fill with color := vals, patternId := some c.pattern_id } }, r.2.2)
            | none => finish (r.1, g0, r.2.2)
          else
            finish (0, { g0 with fill := { g0.fill with patternId := some c.pattern_id } }, stack1)
    else
      let ncomps := pcs.numComponents
      if ncomps > 0 then
        let r := pdfi_get_color_from_stack c.stack ncomps
        match r.2.1 with
        | some vals =>
          finish (0, { g0 with fill := { g0.fill with color := vals } }, r.2.2)
        | none => finish (r.1, g0, r.2.2)
      else
        finish (0, g0, c.stack)

/-! Concrete instances used by witnesses and counterexamples. -/

/-- A benign image environment: a non-inline image dictionary whose every
pipeline step succeeds, with an ImageMask image carrying a [0 1] Mask
array and the given BPC — the Scenario-D configuration. -/
def scenarioD_env (bpc : Nat) (entries : List MaskEntry) : ImgEnv :=
  ⟨false, false, false, 0, false, false, true, false, 0,
   false, true, false, bpc, 0, 0, .deviceRGB, 0, false, 0, 0,
   false, false, 0, 0, false, some (.marray entries), 0, 0,
   0, 0, 0, 0, 0, 0, 0, 0⟩

/-- A benign environment whose rendering step fails with limitcheck. -/
def render_fails_env : ImgEnv :=
  ⟨false, false, false, 0, false, false, true, false, 0,
   true, false, false, 8, 0, 0, .deviceRGB, 0, false, 0, 0,
   false, false, 0, 0, false, none, 0, 0,
   0, 0, 0, 0, 0, 0, gs_error_limitcheck, 0⟩

/-- A non-inline image with neither a ColorSpace key nor ImageMask — a
speculative JPX candidate — whose prescan code is the scanner's return
(0), with benign collaborators. -/
def jpx_reclassify_env : ImgEnv :=
  ⟨false, false, false, 0, false, false, true, false, 0,
   false, false, false, 8, 0, 0, .deviceRGB, 0, false, 0, 0,
   false, false, 0, 0, false, none, 0, 0,
   0, 0, 0, 0, 0, 0, 0, 0⟩

/-- A resolver environment with no resources and benign collaborators. -/
def plain_renv : REnv := ⟨fun _ => none, false, 0, 0, 0, 3, 0, false, true⟩

/-- A scanner environment with no resources and a live spot dict. -/
def plain_senv : SEnv := ⟨fun _ => none, true⟩

/-- The reserved ink names as a finite set, for the C7 statement. -/
def reserved_finset : Finset String :=
  {"Cyan", "Magenta", "Yellow", "Black", "None", "All"}

/-! Claim theorems and their supporting lemmas. -/

/-- C2: for every input stream and declared length, pdfi_scan_jpxfilter
returns success (0) to its caller — the exit label discards the internal
code — including when it aborts internally on a malformed box header:
shown at a box whose declared length is below 8 (limitcheck) and at one
whose length exceeds the remaining available bytes (syntaxerror). -/
theorem C2_jpx_scanner_always_returns_success :
    (∀ (s : PStream) (length : Int), (pdfi_scan_jpxfilter s length).ret = 0) ∧
    (pdfi_scan_jpxfilter ⟨[0, 0, 0, 0, 0, 0, 0, 0], 0⟩ 16).internal = gs_error_limitcheck ∧
    (pdfi_scan_jpxfilter ⟨[0, 0, 1, 0, 0, 0, 0, 0], 0⟩ 16).internal = gs_error_syntaxerror :=
  ⟨fun _ _ => rfl, by decide, by decide⟩

/-- C8: resolving a calibrated space a second time with the same cache key
returns the instance cached by the first resolution — the same
colour-space object with its reference count incremented and its internal
profile identity unchanged — and synthesizes nothing new (the id counter
does not advance); likewise through the CalGray entry keyed by descriptor
identity. -/
theorem C8_cal_cache_round_trip :
    ∀ (st : CalCacheState) (n key : Nat),
      (pdfi_seticc_cal (pdfi_seticc_cal st n key).2 n key).1 = (pdfi_seticc_cal st n key).1 ∧
      (pdfi_seticc_cal (pdfi_seticc_cal st n key).2 n key).2.rc (pdfi_seticc_cal st n key).1
        = (pdfi_seticc_cal st n key).2.rc (pdfi_seticc_cal st n key).1 + 1 ∧
      (pdfi_seticc_cal (pdfi_seticc_cal st n key).2 n key).2.nextId
        = (pdfi_seticc_cal st n key).2.nextId ∧
      (pdfi_seticc_cal (pdfi_seticc_cal st n key).2 n key).2.profileOf (pdfi_seticc_cal st n key).1
        = (pdfi_seticc_cal st n key).2.profileOf (pdfi_seticc_cal st n key).1 ∧
      (pdfi_create_CalGray_cached (pdfi_create_CalGray_cached st key).2 key).1
        = (pdfi_create_CalGray_cached st key).1 := by
  intro st n key
  unfold pdfi_create_CalGray_cached pdfi_seticc_cal gsicc_find_cs
  cases h : st.cache key <;> simp [h]

set_option maxHeartbeats 1000000 in
/-- C10: each stroke-variant colour operator (G, RG, K, SC, SCN) swaps the
fill and stroke halves, performs the fill-oriented logic and swaps back on
every exit path, so the fill half of the colour state is unchanged after
the operator whether it succeeded or failed. -/
theorem C10_stroke_ops_preserve_fill :
    ∀ c : OpCtx,
      (pdfi_setgraystroke c).2.gs.fill = c.gs.fill ∧
      (pdfi_setrgbstroke c).2.gs.fill = c.gs.fill ∧
      (pdfi_setcmykstroke c).2.gs.fill = c.gs.fill ∧
      (pdfi_setstrokecolor c).2.gs.fill = c.gs.fill ∧
      (pdfi_setcolorN c false).2.gs.fill = c.gs.fill := by
  intro c
  refine ⟨?_, ?_, ?_, ?_, ?_⟩
  · unfold pdfi_setgraystroke
    repeat' split
    all_goals first
      | rfl
      | (by_cases hq : c.gs.inside_CharProc = true ∧ c.gs.CharProc_is_d1 = true <;>
          simp [gs_swapcolors_quick, pdfi_gs_setdevcolor, hq] <;>
          (repeat' split) <;> try rfl)
  · unfold pdfi_setrgbstroke
    repeat' split
    all_goals first
      | rfl
      | (by_cases hq : c.gs.inside_CharProc = true ∧ c.gs.CharProc_is_d1 = true <;>
          simp [gs_swapcolors_quick, pdfi_gs_setdevcolor, hq] <;>
          (repeat' split) <;> try rfl)
  · unfold pdfi_setcmykstroke
    repeat' split
    all_goals first
      | rfl
      | (by_cases hq : c.gs.inside_CharProc = true ∧ c.gs.CharProc_is_d1 = true <;>
          simp [gs_swapcolors_quick, pdfi_gs_setdevcolor, hq] <;>
          (repeat' split) <;> try rfl)
  · dsimp only [pdfi_setstrokecolor]
    rcases hv : (pdfi_get_color_from_stack c.stack
        (gs_swapcolors_quick c.gs).fill.space.numComponents).2.1 with _ | v <;>
      simp [hv, gs_swapcolors_quick] <;> (repeat' split) <;> try rfl
  · dsimp only [pdfi_setcolorN]
    repeat' split
    all_goals simp_all [gs_swapcolors_quick]

/-- C1: once past the abbreviated-inline-key precheck, pdfi_do_image
returns 0 regardless of which pipeline step failed, and the
W_PDF_IMAGE_ERROR warning is recorded exactly when a negative code reached
the cleanupExit label. -/
theorem C1_pipeline_errors_become_success :
    ∀ env : ImgEnv,
      ¬(¬env.inline_image ∧ env.abbrev_key_present ∧ env.pdfstoponwarning) →
      (pdfi_do_image env).ret = 0 ∧
      ((pdfi_do_image env).warn_image_error = true ↔ (run_pipeline env).1 < 0) := by
  intro env h
  have h' : ¬(env.inline_image = false ∧ env.abbrev_key_present = true
      ∧ env.pdfstoponwarning = true) := by
    simpa [Bool.not_eq_true] using h
  simp [pdfi_do_image, h']

/-- C1 witness: a concrete run whose rendering step fails with limitcheck,
yet the outer call returns 0 and records the image-error warning. -/
theorem C1_witness :
    (pdfi_do_image render_fails_env).ret = 0 ∧
    (pdfi_do_image render_fails_env).warn_image_error = true := by
  have h := C1_pipeline_errors_become_success render_fails_env (by decide)
  exact ⟨h.1, h.2.mpr (by decide)⟩

/-- C3 counterexample: the prescan cannot fail from the caller's
viewpoint — pdfi_scan_jpxfilter returns 0 even when it aborts internally —
so for a stream whose scan hits an internal limitcheck, a speculative
prescan (no ColorSpace, not an ImageMask) still reclassifies the image as
JPXDecode rather than leaving the classification as it was, and the
abandon branch for an explicitly JPXDecode filter is not taken either. -/
theorem C3_counterexample :
    (pdfi_scan_jpxfilter ⟨[0, 0, 0, 0, 0, 0, 0, 0], 0⟩ 16).internal = gs_error_limitcheck ∧
    jpx_prescan_dispatch false true
      (pdfi_scan_jpxfilter ⟨[0, 0, 0, 0, 0, 0, 0, 0], 0⟩ 16).ret = some true ∧
    jpx_prescan_dispatch true true
      (pdfi_scan_jpxfilter ⟨[0, 0, 0, 0, 0, 0, 0, 0], 0⟩ 16).ret ≠ none := by
  decide

/-- C3 amended: the prescan always returns success, so the dispatch at
pdf_image.c:1378-1381 never abandons the image — the failure branch for an
explicitly JPXDecode filter is unreachable — and always continues with
is_JPXDecode set exactly when the filter was explicit or speculative JPX;
consequently, in the pipeline a non-inline image with no ColorSpace key
and not an ImageMask whose prescan code comes from the scanner is always
reclassified as JPXDecode, whatever the stream contents. -/
theorem C3_amended_prescan_infallible :
    (∀ (s : PStream) (len : Int) (is_jpx maybe_jpx : Bool),
      jpx_prescan_dispatch is_jpx maybe_jpx (pdfi_scan_jpxfilter s len).ret
        = some (is_jpx || maybe_jpx)) ∧
    (∀ (env : ImgEnv) (s : PStream) (len : Int),
      env.scan_code = (pdfi_scan_jpxfilter s len).ret →
      ¬env.inline_image → ¬env.colorspace_present → ¬env.image_mask →
      0 ≤ env.get_info_code → ¬env.oc_off → ¬(env.has_OC ∧ ¬env.oc_visible) →
      ¬env.alt_found →
      (run_pipeline env).2.2.1 = true) := by
  constructor
  · intro s len is_jpx maybe_jpx
    have h : (pdfi_scan_jpxfilter s len).ret = 0 := rfl
    rw [h]
    cases is_jpx <;> cases maybe_jpx <;> simp [jpx_prescan_dispatch]
  · intro env s len hscan h1 h2 h3 h4 h5 h6 h7
    have hs0 : env.scan_code = 0 := hscan
    have h1' : env.inline_image = false := by simpa [Bool.not_eq_true] using h1
    have h2' : env.colorspace_present = false := by simpa [Bool.not_eq_true] using h2
    have h3' : env.image_mask = false := by simpa [Bool.not_eq_true] using h3
    have h5' : env.oc_off = false := by simpa [Bool.not_eq_true] using h5
    have h7' : env.alt_found = false := by simpa [Bool.not_eq_true] using h7
    have hgi : ¬(env.get_info_code < 0) := by omega
    unfold run_pipeline
    simp only [h1', h2', h3', h5', h7', hs0, hgi, if_false, Bool.not_false]
    simp only [jpx_prescan_dispatch]
    norm_num
    by_cases hoc : env.has_OC = true ∧ env.oc_visible = false
    · exact absurd ⟨hoc.1, by simp [hoc.2]⟩ h6
    · rw [if_neg hoc]
      simp only [apply_ite (fun x : Int × Option IVariant × Bool × Nat × Option CS => x.2.2.1),
        ite_self]

/-- C3 witness: the inner dispatch at a concrete stream and a concrete
speculative-JPX pipeline run that ends reclassified as JPXDecode. -/
theorem C3_amended_witness :
    jpx_prescan_dispatch false true (pdfi_scan_jpxfilter ⟨[], 0⟩ 0).ret = some true ∧
    (run_pipeline jpx_reclassify_env).2.2.1 = true := by
  constructor
  · exact C3_amended_prescan_infallible.1 ⟨[], 0⟩ 0 false true
  · exact C3_amended_prescan_infallible.2 jpx_reclassify_env ⟨[], 0⟩ 0 rfl (by decide)
      (by decide) (by decide) (by decide) (by decide) (by decide) (by decide)

/-- C5 counterexample: with ImageMask = true and a Mask array [0, 1]
present, colour resolution does give one component and a null colour
space, but variant selection does not take the Type1/ImageMask path: the
Mask array is honoured and the image is set up as Type 4. -/
theorem C5_counterexample :
    (pdfi_do_image (scenarioD_env 1 [.int 0, .int 1])).comps = 1 ∧
    (pdfi_do_image (scenarioD_env 1 [.int 0, .int 1])).pcs = none ∧
    (pdfi_do_image (scenarioD_env 1 [.int 0, .int 1])).variant = some .t4 ∧
    (pdfi_do_image (scenarioD_env 1 [.int 0, .int 1])).variant ≠ some .t1mask := by
  decide

set_option maxHeartbeats 1000000 in
/-- C5 amended: in the Scenario-D configuration (ImageMask = true together
with a Mask array, no SMask) colour resolution yields one component with a
null colour space and the image is processed without error, but ImageMask
does not take precedence in variant selection: the Mask array is honoured,
the image proceeds via the Type-4 colour-key path when its setup succeeds,
falling back to a plain Type-1 setup when it fails, and the outer call
returns 0. -/
theorem C5_amended_imagemask_with_mask_array :
    ∀ (bpc : Nat) (entries : List MaskEntry),
      (pdfi_do_image (scenarioD_env bpc entries)).comps = 1 ∧
      (pdfi_do_image (scenarioD_env bpc entries)).pcs = none ∧
      (pdfi_do_image (scenarioD_env bpc entries)).variant =
        some (if (pdfi_image_setup_type4 bpc false entries).code < 0
              then IVariant.t1plain else IVariant.t4) ∧
      (pdfi_do_image (scenarioD_env bpc entries)).ret = 0 := by
  intro bpc entries
  dsimp only [pdfi_do_image, run_pipeline, pdfi_image_get_color, jpx_prescan_dispatch,
    scenarioD_env]
  by_cases h4 : (pdfi_image_setup_type4 bpc false entries).code < 0 <;> simp [h4]

/-- Characterization of the Type-4 entry loop for integer entries outside
the Indexed special case with BPC different from 1: entries above maxval
are masked off, all others — including negative ones — receive no
correction, and every value is stored through the 32-bit unsigned
truncation of the MaskColor field. -/
theorem t4_loop_int_masked (m mask : Int) (bpc : Nat) (hbpc : bpc ≠ 1) :
    ∀ (es : List Int) (i : Nat) (acc : List Int) (re fe : Bool),
      t4_loop m mask bpc false (es.map .int) i acc re fe =
        (0, acc ++ es.map (fun v => if v > m then uint32 (and_mask v mask) else uint32 v),
         re || es.any (fun v => decide (v > m)), fe) := by
  intro es
  induction es with
  | nil => intro i acc re fe; simp [t4_loop]
  | cons v rest ih =>
    intro i acc re fe
    by_cases h : v > m <;>
      simp [t4_loop, mask_entry_val, h, ih, hbpc]

/-- C4 counterexample: the claim requires every entry to fit [0, 2^BPC-1]
with out-of-range entries masked off, but only entries above the maximum
are corrected (pdf_image.c:1014): at BPC = 2 the mask [-3, 0] is accepted
with code 0 and the first stored bound is the unsigned wrap 4294967293 —
far outside [0, 3] and not masked off to fit. -/
theorem C4_counterexample :
    (pdfi_image_setup_type4 2 false [.int (-3), .int 0]).code = 0 ∧
    (pdfi_image_setup_type4 2 false [.int (-3), .int 0]).maskColor = [4294967293, 0] ∧
    ¬((4294967293 : Int) ≤ 2 ^ 2 - 1) := by decide

/-- C4 amended: an entry exceeding 2^BPC - 1 (an int64 comparison before
the store) counts as out of range; outside the Indexed-with-BPC-1 case it
is masked off to fit [0, 2^BPC - 1] when BPC is not 1, while entries below
zero receive no correction, so after the 32-bit unsigned store a negative
entry wraps to a large out-of-range bound.  In the Indexed-with-BPC-1 case
an out-of-range first component invalidates the whole mask (rangecheck;
the caller falls back to a plain Type-1 render, see C5) and an
out-of-range second component is replaced by 1.  For a non-Indexed 1-bit
image with an entry above the range, the mask is rejected wholesale when
the two stored (truncated) bounds differ and both are masked off to fit
when they agree — so [2^32 + 1, 1] is accepted and stored as [1, 1]. -/
theorem C4_amended_colour_key_policy :
    (∀ (bpc : Nat) (es : List Int), bpc ≠ 1 → es.length ≤ GS_IMAGE_MAX_COMPONENTS * 2 →
      pdfi_image_setup_type4 bpc false (es.map .int) =
        ⟨0, es.map (fun v => if v > 2 ^ bpc - 1 then uint32 (and_mask v (2 ^ bpc - 1))
                             else uint32 v),
         es.any (fun v => decide (v > 2 ^ bpc - 1)), false,
         es.any (fun v => decide (v > 2 ^ bpc - 1))⟩) ∧
    (∀ (v : Int) (bpc : Nat),
      (0 ≤ and_mask v (2 ^ bpc - 1) ∧ and_mask v (2 ^ bpc - 1) ≤ 2 ^ bpc - 1) ∧
      (0 ≤ uint32 v ∧ uint32 v < 4294967296)) ∧
    (∀ (bpc : Nat) (e0 : Int) (rest : List MaskEntry),
      e0 > 2 ^ bpc - 1 → rest.length + 1 ≤ GS_IMAGE_MAX_COMPONENTS * 2 →
      pdfi_image_setup_type4 bpc true (.int e0 :: rest)
        = ⟨gs_error_rangecheck, [], true, false, true⟩) ∧
    (∀ (bpc : Nat) (e0 e1 : Int), e0 ≤ 2 ^ bpc - 1 → e1 > 2 ^ bpc - 1 →
      pdfi_image_setup_type4 bpc true [.int e0, .int e1]
        = ⟨0, [uint32 e0, 1], true, false, true⟩) ∧
    (∀ (e0 e1 : Int), (e0 > 1 ∨ e1 > 1) → uint32 e0 ≠ uint32 e1 →
      pdfi_image_setup_type4 1 false [.int e0, .int e1]
        = ⟨gs_error_rangecheck, [uint32 e0, uint32 e1], true, false, true⟩) ∧
    (∀ (e0 e1 : Int), (e0 > 1 ∨ e1 > 1) → uint32 e0 = uint32 e1 →
      pdfi_image_setup_type4 1 false [.int e0, .int e1]
        = ⟨0, [and_mask (uint32 e0) 1, and_mask (uint32 e1) 1], true, false, true⟩) := by
  refine ⟨?_, ?_, ?_, ?_, ?_, ?_⟩
  · intro bpc es hbpc hlen
    unfold pdfi_image_setup_type4
    dsimp only
    rw [t4_loop_int_masked _ _ _ hbpc]
    simp [hbpc, Nat.not_lt.mpr hlen, hlen]
  · intro v bpc
    refine ⟨?_, ?_⟩
    · have hp : (0 : Int) < 2 ^ bpc := by positivity
      unfold and_mask
      constructor
      · have := Int.emod_nonneg v (by omega : (2 : Int) ^ bpc - 1 + 1 ≠ 0)
        omega
      · have := Int.emod_lt_of_pos v (by omega : (0 : Int) < 2 ^ bpc - 1 + 1)
        omega
    · unfold uint32
      constructor
      · have := Int.emod_nonneg v (by omega : (4294967296 : Int) ≠ 0)
        omega
      · have := Int.emod_lt_of_pos v (by omega : (0 : Int) < 4294967296)
        omega
  · intro bpc e0 rest h hlen
    unfold pdfi_image_setup_type4
    simp [t4_loop, mask_entry_val, h, Nat.not_lt.mpr hlen, hlen, gs_error_rangecheck]
  · intro bpc e0 e1 h0 h1
    unfold pdfi_image_setup_type4
    simp [t4_loop, mask_entry_val, h0, h1, Int.not_lt.mpr h0, GS_IMAGE_MAX_COMPONENTS,
      gs_error_rangecheck, uint32]
  · intro e0 e1 h hne
    unfold pdfi_image_setup_type4
    rcases h with h | h
    · by_cases h1 : e1 > 1 <;>
        simp [t4_loop, mask_entry_val, h, h1, hne, GS_IMAGE_MAX_COMPONENTS,
          gs_error_rangecheck]
    · by_cases h0 : e0 > 1 <;>
        simp [t4_loop, mask_entry_val, h, h0, hne, GS_IMAGE_MAX_COMPONENTS,
          gs_error_rangecheck]
  · intro e0 e1 h heq
    unfold pdfi_image_setup_type4
    rcases h with h | h
    · by_cases h1 : e1 > 1 <;>
        simp [t4_loop, mask_entry_val, h, h1, heq, GS_IMAGE_MAX_COMPONENTS,
          gs_error_rangecheck]
    · by_cases h0 : e0 > 1 <;>
        simp [t4_loop, mask_entry_val, h, h0, heq, GS_IMAGE_MAX_COMPONENTS,
          gs_error_rangecheck]

/-- C4 witness: each conjunct of the amended policy applied at concrete
inputs, including the wrap-around acceptance of [2^32 + 1, 1] at 1 BPC. -/
theorem C4_witness :
    pdfi_image_setup_type4 2 false [.int 7, .int 0] = ⟨0, [3, 0], true, false, true⟩ ∧
    ((0 ≤ and_mask 7 (2 ^ 2 - 1) ∧ and_mask 7 (2 ^ 2 - 1) ≤ 2 ^ 2 - 1) ∧
      (0 ≤ uint32 7 ∧ uint32 7 < 4294967296)) ∧
    pdfi_image_setup_type4 1 true [.int 2, .int 0] = ⟨gs_error_rangecheck, [], true, false, true⟩ ∧
    pdfi_image_setup_type4 1 true [.int 0, .int 5] = ⟨0, [0, 1], true, false, true⟩ ∧
    pdfi_image_setup_type4 1 false [.int 1, .int 3] = ⟨gs_error_rangecheck, [1, 3], true, false, true⟩ ∧
    pdfi_image_setup_type4 1 false [.int 4294967297, .int 1] = ⟨0, [1, 1], true, false, true⟩ := by
  refine ⟨?_, C4_amended_colour_key_policy.2.1 7 2, ?_, ?_, ?_, ?_⟩
  · have h := C4_amended_colour_key_policy.1 2 [7, 0] (by decide) (by decide)
    rw [show ([7, 0] : List Int).map MaskEntry.int = [.int 7, .int 0] from rfl] at h
    rw [h]; decide
  · exact C4_amended_colour_key_policy.2.2.1 1 2 [.int 0] (by decide) (by decide)
  · have h := C4_amended_colour_key_policy.2.2.2.1 1 0 5 (by decide) (by decide)
    rw [h]; decide
  · have h := C4_amended_colour_key_policy.2.2.2.2.1 1 3 (by decide) (by decide)
    rw [h]; decide
  · have h := C4_amended_colour_key_policy.2.2.2.2.2 4294967297 1 (by decide) (by decide)
    rw [h]; decide

/-- C6: resolving an Indexed colour-space array fails with an error and
constructs no colour space whenever the high value lies outside [0, 255]
(syntaxerror) or the lookup table holds fewer than (hival + 1) times
baseComponents bytes (rangecheck — a range violation, never a silent
truncation); both a stream and a raw byte string are accepted
lookup-table sources. -/
theorem C6_indexed_validation :
    (∀ (fuel : Nat) (env : REnv) (inline : Bool) (st : RState) (tail : List PdfObj) (hival : Int),
      array_get_int (PdfObj.name "Indexed" :: tail) 2 = .ok hival →
      hival > 255 ∨ hival < 0 →
      pdfi_create_colorspace (fuel + 2) env inline (.arr (.name "Indexed" :: tail)) st
        = ⟨gs_error_syntaxerror, none, st⟩) ∧
    (∀ (fuel : Nat) (env : REnv) (inline : Bool) (st : RState) (base : PdfObj)
        (hival : Int) (buf : List Nat) (bcs : CS) (stb : RState) (sdict : List (String × PdfObj)),
      0 ≤ hival → hival ≤ 255 →
      resolve fuel env inline (.cspace base) (loop_mark st) = ⟨0, some bcs, stb⟩ →
      (hival + 1) * (bcs.numComponents : Int) > (buf.length : Int) →
      (pdfi_create_colorspace (fuel + 2) env inline
          (.arr [.name "Indexed", base, .intg hival, .strg buf]) st
        = ⟨gs_error_rangecheck, none, loop_cleartomark stb⟩) ∧
      (pdfi_create_colorspace (fuel + 2) env inline
          (.arr [.name "Indexed", base, .intg hival, .dict sdict (some buf)]) st
        = ⟨gs_error_rangecheck, none, loop_cleartomark stb⟩)) ∧
    (∀ (fuel : Nat) (env : REnv) (inline : Bool) (st : RState) (base : PdfObj)
        (hival : Int) (buf : List Nat) (bcs : CS) (stb : RState) (sdict : List (String × PdfObj)),
      0 ≤ hival → hival ≤ 255 →
      resolve fuel env inline (.cspace base) (loop_mark st) = ⟨0, some bcs, stb⟩ →
      (hival + 1) * (bcs.numComponents : Int) ≤ (buf.length : Int) →
      (pdfi_create_colorspace (fuel + 2) env inline
          (.arr [.name "Indexed", base, .intg hival, .strg buf]) st
        = ⟨0, some (if env.device_named ∧ bcs.is_sep_or_devn then
                      CS.indexedNamed bcs hival.toNat buf
                    else CS.indexed bcs hival.toNat buf), loop_cleartomark stb⟩) ∧
      (pdfi_create_colorspace (fuel + 2) env inline
          (.arr [.name "Indexed", base, .intg hival, .dict sdict (some buf)]) st
        = ⟨0, some (if env.device_named ∧ bcs.is_sep_or_devn then
                      CS.indexedNamed bcs hival.toNat buf
                    else CS.indexed bcs hival.toNat buf), loop_cleartomark stb⟩)) := by
  refine ⟨?_, ?_, ?_⟩
  · intro fuel env inline st tail hival hget hrange
    simp +decide [pdfi_create_colorspace, resolve, by_array_body, create_indexed_body,
      array_get_type, array_get, PdfObj.typeOf, hget, hrange, loop_mark, loop_cleartomark]
  · intro fuel env inline st base hival buf bcs stb sdict h0 h255 hbase hlen
    have hr : ¬(hival > 255 ∨ hival < 0) := by omega
    simp only [loop_mark] at hbase
    constructor <;>
      simp +decide [pdfi_create_colorspace, resolve, by_array_body, create_indexed_body,
        array_get_type, array_get, array_get_int, PdfObj.typeOf, hbase, hr, hlen, loop_mark,
        loop_cleartomark, gs_error_rangecheck]
  · intro fuel env inline st base hival buf bcs stb sdict h0 h255 hbase hlen
    have hr : ¬(hival > 255 ∨ hival < 0) := by omega
    have hlen' : ¬((hival + 1) * (bcs.numComponents : Int) > (buf.length : Int)) := by omega
    simp only [loop_mark] at hbase
    constructor <;>
      simp +decide [pdfi_create_colorspace, resolve, by_array_body, create_indexed_body,
        array_get_type, array_get, array_get_int, PdfObj.typeOf, hbase, hr, hlen', loop_mark,
        loop_cleartomark]

/-- C6 witness: the validation applied to concrete Indexed descriptors
over DeviceRGB with string and stream lookup tables. -/
theorem C6_witness :
    (pdfi_create_colorspace 4 plain_renv true
        (.arr [.name "Indexed", .name "DeviceRGB", .intg 0, .strg []]) ⟨0⟩
      = ⟨gs_error_rangecheck, none, ⟨0⟩⟩) ∧
    (pdfi_create_colorspace 4 plain_renv true
        (.arr [.name "Indexed", .name "DeviceRGB", .intg 0, .strg [1, 2, 3]]) ⟨0⟩
      = ⟨0, some (CS.indexed .deviceRGB 0 [1, 2, 3]), ⟨0⟩⟩) ∧
    (pdfi_create_colorspace 4 plain_renv true
        (.arr [.name "Indexed", .name "DeviceRGB", .intg 0, .dict [] (some [1, 2, 3])]) ⟨0⟩
      = ⟨0, some (CS.indexed .deviceRGB 0 [1, 2, 3]), ⟨0⟩⟩) ∧
    (pdfi_create_colorspace 4 plain_renv true
        (.arr [.name "Indexed", .name "DeviceRGB", .intg 300, .strg [1, 2, 3]]) ⟨0⟩
      = ⟨gs_error_syntaxerror, none, ⟨0⟩⟩) := by
  refine ⟨?_, ?_, ?_, ?_⟩
  · exact (C6_indexed_validation.2.1 2 plain_renv true ⟨0⟩ (.name "DeviceRGB") 0 []
      CS.deviceRGB ⟨1⟩ [] (by decide) (by decide) (by decide) (by decide)).1
  · have h := (C6_indexed_validation.2.2 2 plain_renv true ⟨0⟩ (.name "DeviceRGB") 0 [1, 2, 3]
      CS.deviceRGB ⟨1⟩ [] (by decide) (by decide) (by decide) (by decide)).1
    rw [h]; decide
  · have h := (C6_indexed_validation.2.2 2 plain_renv true ⟨0⟩ (.name "DeviceRGB") 0 [1, 2, 3]
      CS.deviceRGB ⟨1⟩ [] (by decide) (by decide) (by decide) (by decide)).2
    rw [h]; decide
  · exact C6_indexed_validation.1 2 plain_renv true ⟨0⟩
      [.name "DeviceRGB", .intg 300, .strg [1, 2, 3]] 300 rfl (by decide)


lemma create_Lab_st (env : REnv) (ca : List PdfObj) (index : Nat) (st : RState) :
    (create_Lab_body env ca index st).st = st := by
  unfold create_Lab_body
  try dsimp only
  repeat' split
  all_goals rfl

lemma create_CalGray_st (env : REnv) (ca : List PdfObj) (index : Nat) (st : RState) :
    (create_CalGray_body env ca index st).st = st := by
  unfold create_CalGray_body
  try dsimp only
  repeat' split
  all_goals rfl

lemma create_CalRGB_st (env : REnv) (ca : List PdfObj) (index : Nat) (st : RState) :
    (create_CalRGB_body env ca index st).st = st := by
  unfold create_CalRGB_body
  try dsimp only
  repeat' split
  all_goals rfl

lemma create_iccbased_depth (env : REnv) (recN : String → RState → Res)
    (hN : ∀ n s, ((recN n s).st).depth = s.depth) :
    ∀ (ca : List PdfObj) (index : Nat) (st : RState),
      ((create_iccbased_body env recN ca index st).st).depth = st.depth := by
  intro ca index st
  unfold create_iccbased_body
  try dsimp only
  repeat' split
  all_goals simp [hN]

lemma resolve_alternate_depth (recN : String → RState → Res)
    (recA : List PdfObj → Nat → RState → Res)
    (hN : ∀ n s, ((recN n s).st).depth = s.depth)
    (hA : ∀ es i s, ((recA es i s).st).depth = s.depth) :
    ∀ (o : PdfObj) (st : RState),
      ((resolve_alternate recN recA o st).st).depth = st.depth := by
  intro o st
  cases o <;> simp [resolve_alternate, hN, hA]

lemma create_Separation_depth (env : REnv) (recN : String → RState → Res)
    (recA : List PdfObj → Nat → RState → Res)
    (hN : ∀ n s, ((recN n s).st).depth = s.depth)
    (hA : ∀ es i s, ((recA es i s).st).depth = s.depth) :
    ∀ (ca : List PdfObj) (index : Nat) (st : RState),
      ((create_Separation_body env recN recA ca index st).st).depth = st.depth := by
  intro ca index st
  unfold create_Separation_body
  try dsimp only
  repeat' split
  all_goals simp [resolve_alternate_depth recN recA hN hA]

lemma colorants_loop_depth (recC : PdfObj → RState → Res)
    (hC : ∀ o s, ((recC o s).st).depth = s.depth) :
    ∀ (l : List (String × PdfObj)) (st : RState),
      ((colorants_loop recC l st).2).depth = st.depth := by
  intro l
  induction l with
  | nil => intro st; rfl
  | cons p rest ih =>
    intro st
    unfold colorants_loop
    dsimp only
    repeat' split
    all_goals simp [hC, ih]

lemma devn_process_body_depth (recC : PdfObj → RState → Res)
    (hC : ∀ o s, ((recC o s).st).depth = s.depth) :
    ∀ (p : List (String × PdfObj)) (st1 : RState),
      ((devn_process_body recC p st1).2).depth = st1.depth := by
  intro p st1
  unfold devn_process_body
  try dsimp only
  repeat' split
  all_goals simp [hC]

lemma devn_colorants_body_depth (recC : PdfObj → RState → Res)
    (hC : ∀ o s, ((recC o s).st).depth = s.depth) :
    ∀ (c : List (String × PdfObj)) (st2 : RState),
      ((devn_colorants_body recC c st2).2).depth = st2.depth := by
  intro c st2
  unfold devn_colorants_body
  try dsimp only
  repeat' split
  all_goals first
    | rfl
    | exact colorants_loop_depth recC hC c st2

lemma devn_attributes_body_depth (env : REnv) (recC : PdfObj → RState → Res)
    (hC : ∀ o s, ((recC o s).st).depth = s.depth) :
    ∀ (attrs : List (String × PdfObj)) (st1 : RState),
      ((devn_attributes_body env recC attrs st1).2).depth = st1.depth := by
  intro attrs st1
  unfold devn_attributes_body
  try dsimp only
  repeat' split
  all_goals simp [devn_process_body_depth recC hC, devn_colorants_body_depth recC hC]

lemma create_DeviceN_depth (env : REnv) (recC : PdfObj → RState → Res)
    (recN : String → RState → Res) (recA : List PdfObj → Nat → RState → Res)
    (hC : ∀ o s, ((recC o s).st).depth = s.depth)
    (hN : ∀ n s, ((recN n s).st).depth = s.depth)
    (hA : ∀ es i s, ((recA es i s).st).depth = s.depth) :
    ∀ (ca : List PdfObj) (index : Nat) (st : RState),
      ((create_DeviceN_body env recC recN recA ca index st).st).depth = st.depth := by
  intro ca index st
  unfold create_DeviceN_body
  try dsimp only
  repeat' split
  all_goals simp [resolve_alternate_depth recN recA hN hA,
    devn_attributes_body_depth env recC hC]

lemma create_indexed_depth (env : REnv) (recC : PdfObj → RState → Res)
    (hC : ∀ o s, ((recC o s).st).depth = s.depth) :
    ∀ (ca : List PdfObj) (index : Nat) (st : RState),
      ((create_indexed_body env recC ca index st).st).depth = st.depth := by
  intro ca index st
  unfold create_indexed_body
  try dsimp only
  repeat' split
  all_goals simp [hC]

lemma by_array_body_depth (env : REnv) (recC : PdfObj → RState → Res)
    (recN : String → RState → Res) (recA : List PdfObj → Nat → RState → Res)
    (hC : ∀ o s, ((recC o s).st).depth = s.depth)
    (hN : ∀ n s, ((recN n s).st).depth = s.depth)
    (hA : ∀ es i s, ((recA es i s).st).depth = s.depth) :
    ∀ (ca : List PdfObj) (index : Nat) (inline_image : Bool) (st : RState),
      ((by_array_body env recC recN recA ca index inline_image st).st).depth = st.depth := by
  intro ca index inline_image st
  unfold by_array_body
  split
  · rfl
  · rename_i s heq
    by_cases h1 : s = "G" ∨ s = "DeviceGray"
    · rw [if_pos h1]
      split <;> rfl
    · rw [if_neg h1]
      by_cases h2 : s = "I" ∨ s = "Indexed"
      · rw [if_pos h2]
        split
        · rfl
        · exact create_indexed_depth env recC hC ca index st
      · rw [if_neg h2]
        by_cases h3 : s = "Lab"
        · rw [if_pos h3]
          simp [create_Lab_st]
        · rw [if_neg h3]
          by_cases h4 : s = "RGB" ∨ s = "DeviceRGB"
          · rw [if_pos h4]
            split <;> rfl
          · rw [if_neg h4]
            by_cases h5 : s = "CMYK" ∨ s = "DeviceCMYK"
            · rw [if_pos h5]
              split <;> rfl
            · rw [if_neg h5]
              by_cases h6 : s = "CalRGB"
              · rw [if_pos h6]
                simp [create_CalRGB_st]
              · rw [if_neg h6]
                by_cases h7 : s = "CalGray"
                · rw [if_pos h7]
                  simp [create_CalGray_st]
                · rw [if_neg h7]
                  by_cases h8 : s = "Pattern"
                  · rw [if_pos h8]
                    repeat' split
                    all_goals rfl
                  · rw [if_neg h8]
                    by_cases h9 : s = "DeviceN"
                    · rw [if_pos h9]
                      exact create_DeviceN_depth env recC recN recA hC hN hA ca index st
                    · rw [if_neg h9]
                      by_cases h10 : s = "ICCBased"
                      · rw [if_pos h10]
                        exact create_iccbased_depth env recN hN ca index st
                      · rw [if_neg h10]
                        by_cases h11 : s = "Separation"
                        · rw [if_pos h11]
                          exact create_Separation_depth env recN recA hN hA ca index st
                        · rw [if_neg h11]
                          repeat' split
                          all_goals simp [hA]
  · rfl

lemma by_name_body_depth (env : REnv) (recC : PdfObj → RState → Res)
    (hC : ∀ o s, ((recC o s).st).depth = s.depth) :
    ∀ (nm : String) (inline_image : Bool) (st : RState),
      ((by_name_body env recC nm inline_image st).st).depth = st.depth := by
  intro nm inline_image st
  unfold by_name_body
  try dsimp only
  repeat' split
  all_goals simp [hC]

lemma resolve_depth : ∀ (fuel : Nat) (env : REnv) (inline_image : Bool)
    (call : RCall) (st : RState),
    ((resolve fuel env inline_image call st).st).depth = st.depth := by
  intro fuel
  induction fuel with
  | zero => intro env inline_image call st; rfl
  | succ n ih =>
    intro env inline_image call st
    cases call with
    | cspace obj =>
      cases obj <;> simp [resolve, loop_mark, loop_cleartomark, ih]
    | byName nm =>
      exact by_name_body_depth env _ (fun o s => ih env inline_image (.cspace o) s)
        nm inline_image st
    | byArray es index =>
      exact by_array_body_depth env _ _ _
        (fun o s => ih env inline_image (.cspace o) s)
        (fun nm s => ih env inline_image (.byName nm) s)
        (fun es2 i s => ih env inline_image (.byArray es2 i) s) es index inline_image st

lemma spot_insert_depth (nm : String) (st : SpotSt) :
    (spot_insert nm st).depth = st.depth := by
  unfold spot_insert
  split <;> rfl

lemma spots_devn_loop_depth : ∀ (l : List PdfObj) (st : SpotSt),
    ((spots_devn_loop l st).2).depth = st.depth := by
  intro l
  induction l with
  | nil => intro st; rfl
  | cons o rest ih =>
    intro st
    cases o
    all_goals unfold spots_devn_loop
    all_goals repeat' split
    all_goals simp [ih, spot_insert_depth]

lemma spots_by_array_body_depth (env : SEnv)
    (recCheck : PdfObj → SpotSt → Int × SpotSt)
    (recArr : List PdfObj → SpotSt → Int × SpotSt)
    (hC : ∀ o s, ((recCheck o s).2).depth = s.depth)
    (hA : ∀ es s, ((recArr es s).2).depth = s.depth) :
    ∀ (ca : List PdfObj) (st : SpotSt),
      ((spots_by_array_body env recCheck recArr ca st).2).depth = st.depth := by
  intro ca st
  unfold spots_by_array_body
  try dsimp only
  repeat' split
  all_goals simp [hC, hA, spots_devn_loop_depth, spot_insert_depth]

lemma spots_by_name_body_depth (env : SEnv)
    (recCheck : PdfObj → SpotSt → Int × SpotSt)
    (hC : ∀ o s, ((recCheck o s).2).depth = s.depth) :
    ∀ (nm : String) (st : SpotSt),
      ((spots_by_name_body env recCheck nm st).2).depth = st.depth := by
  intro nm st
  unfold spots_by_name_body
  try dsimp only
  repeat' split
  all_goals simp [hC]

lemma spots_check_body_depth (env : SEnv)
    (recName : String → SpotSt → Int × SpotSt)
    (recArrTop : List PdfObj → SpotSt → Int × SpotSt)
    (hN : ∀ n s, ((recName n s).2).depth = s.depth)
    (hA : ∀ es s, ((recArrTop es s).2).depth = s.depth) :
    ∀ (obj : PdfObj) (st : SpotSt),
      ((spots_check_body env recName recArrTop obj st).2).depth = st.depth := by
  intro obj st
  unfold spots_check_body
  try dsimp only
  repeat' split
  all_goals simp [smark, sclear, hN, hA]

lemma spotscan_depth : ∀ (fuel : Nat) (env : SEnv) (call : SCall) (st : SpotSt),
    ((spotscan fuel env call st).2).depth = st.depth := by
  intro fuel
  induction fuel with
  | zero => intro env call st; rfl
  | succ n ih =>
    intro env call st
    cases call with
    | check obj =>
      exact spots_check_body_depth env _ _
        (fun nm s => ih env (.byName nm) s)
        (fun es s => ih env (.byArray es) s) obj st
    | byName nm =>
      exact spots_by_name_body_depth env _
        (fun o s => ih env (.check o) s) nm st
    | byArray es =>
      exact spots_by_array_body_depth env _ _
        (fun o s => ih env (.check o) s)
        (fun es2 s => ih env (.byArray es2) s) es st

/-- C9: the colour-space resolver and the spot scanner each leave the
loop-detector mark depth unchanged across every call, whatever the
descriptor, environment and starting state: marks pushed on entry are
cleared on every exit path. -/
theorem C9_loop_detector_balance (fuel : Nat) (env : REnv) (inline_image : Bool)
    (obj : PdfObj) (st : RState) (senv : SEnv) (sobj : PdfObj) (sst : SpotSt) :
    ((pdfi_create_colorspace fuel env inline_image obj st).st).depth = st.depth ∧
    ((pdfi_check_ColorSpace_for_spots fuel senv sobj sst).2).depth = sst.depth :=
  ⟨resolve_depth fuel env inline_image (.cspace obj) st,
   spotscan_depth fuel senv (.check sobj) sst⟩


lemma spot_insert_spots (nm : String) (st : SpotSt) :
    (spot_insert nm st).spots = insert nm st.spots := by
  unfold spot_insert
  split
  · rename_i h
    exact (Finset.insert_eq_self.mpr h).symm
  · rfl

lemma smark_sunion (st : SpotSt) (t : Finset String) :
    smark (sunion st t) = sunion (smark st) t := rfl

lemma sclear_sunion (st : SpotSt) (t : Finset String) :
    sclear (sunion st t) = sunion (sclear st) t := rfl

lemma spot_insert_shift (nm : String) (st : SpotSt) (t : Finset String) :
    spot_insert nm (sunion st t) = sunion (spot_insert nm st) t := by
  unfold spot_insert sunion
  dsimp only
  by_cases h1 : nm ∈ st.spots
  · rw [if_pos (Finset.mem_union_left t h1), if_pos h1]
  · by_cases h2 : nm ∈ t
    · rw [if_pos (Finset.mem_union_right _ h2), if_neg h1]
      dsimp only
      congr 1
      rw [Finset.insert_union]
      exact (Finset.insert_eq_self.mpr (Finset.mem_union_right _ h2)).symm
    · rw [if_neg (by simp [Finset.mem_union, h1, h2]), if_neg h1]
      dsimp only
      congr 1
      exact (Finset.insert_union _ _ _).symm

lemma spots_devn_loop_shift : ∀ (l : List PdfObj) (st : SpotSt) (t : Finset String),
    spots_devn_loop l (sunion st t)
      = ((spots_devn_loop l st).1, sunion (spots_devn_loop l st).2 t) := by
  intro l
  induction l with
  | nil => intro st t; rfl
  | cons o rest ih =>
    intro st t
    cases o
    all_goals unfold spots_devn_loop
    all_goals try rfl
    rename_i s
    split
    · exact ih st t
    · rw [spot_insert_shift]
      exact ih _ t

lemma spots_by_array_body_shift (env : SEnv)
    (recCheck : PdfObj → SpotSt → Int × SpotSt)
    (recArr : List PdfObj → SpotSt → Int × SpotSt)
    (hC : ∀ o st t, recCheck o (sunion st t)
      = ((recCheck o st).1, sunion (recCheck o st).2 t))
    (hA : ∀ es st t, recArr es (sunion st t)
      = ((recArr es st).1, sunion (recArr es st).2 t)) :
    ∀ (ca : List PdfObj) (st : SpotSt) (t : Finset String),
      spots_by_array_body env recCheck recArr ca (sunion st t)
        = ((spots_by_array_body env recCheck recArr ca st).1,
           sunion (spots_by_array_body env recCheck recArr ca st).2 t) := by
  intro ca st t
  unfold spots_by_array_body
  repeat' split
  all_goals first
    | rfl
    | exact hC _ _ _
    | exact hA _ _ _
    | exact spots_devn_loop_shift _ _ _
    | (rw [spot_insert_shift]; try rfl)

lemma spots_by_name_body_shift (env : SEnv)
    (recCheck : PdfObj → SpotSt → Int × SpotSt)
    (hC : ∀ o st t, recCheck o (sunion st t)
      = ((recCheck o st).1, sunion (recCheck o st).2 t)) :
    ∀ (nm : String) (st : SpotSt) (t : Finset String),
      spots_by_name_body env recCheck nm (sunion st t)
        = ((spots_by_name_body env recCheck nm st).1,
           sunion (spots_by_name_body env recCheck nm st).2 t) := by
  intro nm st t
  unfold spots_by_name_body
  repeat' split
  all_goals first
    | rfl
    | exact hC _ _ _

lemma spots_check_body_shift (env : SEnv)
    (recName : String → SpotSt → Int × SpotSt)
    (recArrTop : List PdfObj → SpotSt → Int × SpotSt)
    (hN : ∀ nm st t, recName nm (sunion st t)
      = ((recName nm st).1, sunion (recName nm st).2 t))
    (hA : ∀ es st t, recArrTop es (sunion st t)
      = ((recArrTop es st).1, sunion (recArrTop es st).2 t)) :
    ∀ (obj : PdfObj) (st : SpotSt) (t : Finset String),
      spots_check_body env recName recArrTop obj (sunion st t)
        = ((spots_check_body env recName recArrTop obj st).1,
           sunion (spots_check_body env recName recArrTop obj st).2 t) := by
  intro obj st t
  unfold spots_check_body
  split
  · rfl
  · cases obj
    all_goals dsimp only
    all_goals rw [smark_sunion]
    · rw [hN]
      rfl
    · rw [hA]
      rfl
    all_goals rfl

lemma spotscan_shift : ∀ (fuel : Nat) (env : SEnv) (call : SCall)
    (st : SpotSt) (t : Finset String),
    spotscan fuel env call (sunion st t)
      = ((spotscan fuel env call st).1, sunion (spotscan fuel env call st).2 t) := by
  intro fuel
  induction fuel with
  | zero => intro env call st t; rfl
  | succ n ih =>
    intro env call st t
    cases call with
    | check obj =>
      exact spots_check_body_shift env _ _
        (fun nm s u => ih env (.byName nm) s u)
        (fun es s u => ih env (.byArray es) s u) obj st t
    | byName nm =>
      exact spots_by_name_body_shift env _
        (fun o s u => ih env (.check o) s u) nm st t
    | byArray es =>
      exact spots_by_array_body_shift env _ _
        (fun o s u => ih env (.check o) s u)
        (fun es2 s u => ih env (.byArray es2) s u) es st t

lemma mem_reserved_finset (x : String) :
    x ∈ reserved_finset ↔ x ∈ reserved_ink_names := by
  simp [reserved_finset, reserved_ink_names]

lemma spot_insert_sound (nm : String) (st : SpotSt) :
    st.spots ⊆ (spot_insert nm st).spots ∧
    ∀ x ∈ (spot_insert nm st).spots, x ∈ st.spots ∨ x = nm := by
  rw [spot_insert_spots]
  refine ⟨Finset.subset_insert _ _, ?_⟩
  intro x hx
  rcases Finset.mem_insert.mp hx with h | h
  · exact Or.inr h
  · exact Or.inl h

lemma spots_devn_loop_sound : ∀ (l : List PdfObj) (st : SpotSt),
    st.spots ⊆ (spots_devn_loop l st).2.spots ∧
    ∀ x ∈ (spots_devn_loop l st).2.spots,
      x ∈ st.spots ∨ x ∉ reserved_ink_names := by
  intro l
  induction l with
  | nil => intro st; exact ⟨Finset.Subset.refl _, fun x hx => Or.inl hx⟩
  | cons o rest ih =>
    intro st
    cases o
    all_goals unfold spots_devn_loop
    all_goals try exact ⟨Finset.Subset.refl _, fun x hx => Or.inl hx⟩
    rename_i s
    split
    · exact ih st
    · rename_i hres
      obtain ⟨hg, hs⟩ := ih (spot_insert s st)
      refine ⟨Finset.Subset.trans (spot_insert_sound s st).1 hg, ?_⟩
      intro x hx
      rcases hs x hx with h | h
      · rcases (spot_insert_sound s st).2 x h with h2 | h2
        · exact Or.inl h2
        · subst h2
          exact Or.inr hres
      · exact Or.inr h

lemma spots_by_array_body_sound (env : SEnv)
    (recCheck : PdfObj → SpotSt → Int × SpotSt)
    (recArr : List PdfObj → SpotSt → Int × SpotSt)
    (hC : ∀ o st, st.spots ⊆ (recCheck o st).2.spots ∧
      ∀ x ∈ (recCheck o st).2.spots, x ∈ st.spots ∨ x ∉ reserved_ink_names)
    (hA : ∀ es st, st.spots ⊆ (recArr es st).2.spots ∧
      ∀ x ∈ (recArr es st).2.spots, x ∈ st.spots ∨ x ∉ reserved_ink_names) :
    ∀ (ca : List PdfObj) (st : SpotSt),
      st.spots ⊆ (spots_by_array_body env recCheck recArr ca st).2.spots ∧
      ∀ x ∈ (spots_by_array_body env recCheck recArr ca st).2.spots,
        x ∈ st.spots ∨ x ∉ reserved_ink_names := by
  intro ca st
  unfold spots_by_array_body
  repeat' split
  all_goals first
    | exact ⟨Finset.Subset.refl _, fun x hx => Or.inl hx⟩
    | exact hC _ _
    | exact hA _ _
    | exact spots_devn_loop_sound _ _
    | (rename_i hres
       obtain ⟨hg, hs⟩ := spot_insert_sound _ st
       refine ⟨hg, ?_⟩
       intro x hx
       rcases hs x hx with h | h
       · exact Or.inl h
       · subst h
         exact Or.inr hres)

lemma spots_by_name_body_sound (env : SEnv)
    (recCheck : PdfObj → SpotSt → Int × SpotSt)
    (hC : ∀ o st, st.spots ⊆ (recCheck o st).2.spots ∧
      ∀ x ∈ (recCheck o st).2.spots, x ∈ st.spots ∨ x ∉ reserved_ink_names) :
    ∀ (nm : String) (st : SpotSt),
      st.spots ⊆ (spots_by_name_body env recCheck nm st).2.spots ∧
      ∀ x ∈ (spots_by_name_body env recCheck nm st).2.spots,
        x ∈ st.spots ∨ x ∉ reserved_ink_names := by
  intro nm st
  unfold spots_by_name_body
  repeat' split
  all_goals first
    | exact ⟨Finset.Subset.refl _, fun x hx => Or.inl hx⟩
    | exact hC _ _

lemma spots_check_body_sound (env : SEnv)
    (recName : String → SpotSt → Int × SpotSt)
    (recArrTop : List PdfObj → SpotSt → Int × SpotSt)
    (hN : ∀ nm st, st.spots ⊆ (recName nm st).2.spots ∧
      ∀ x ∈ (recName nm st).2.spots, x ∈ st.spots ∨ x ∉ reserved_ink_names)
    (hA : ∀ es st, st.spots ⊆ (recArrTop es st).2.spots ∧
      ∀ x ∈ (recArrTop es st).2.spots, x ∈ st.spots ∨ x ∉ reserved_ink_names) :
    ∀ (obj : PdfObj) (st : SpotSt),
      st.spots ⊆ (spots_check_body env recName recArrTop obj st).2.spots ∧
      ∀ x ∈ (spots_check_body env recName recArrTop obj st).2.spots,
        x ∈ st.spots ∨ x ∉ reserved_ink_names := by
  intro obj st
  unfold spots_check_body
  split
  · exact ⟨Finset.Subset.refl _, fun x hx => Or.inl hx⟩
  · cases obj
    all_goals dsimp only
    all_goals try exact ⟨Finset.Subset.refl _, fun x hx => Or.inl hx⟩
    · rename_i nm2
      exact hN nm2 (smark st)
    · rename_i es2
      exact hA es2 (smark st)

lemma spotscan_sound : ∀ (fuel : Nat) (env : SEnv) (call : SCall) (st : SpotSt),
    st.spots ⊆ (spotscan fuel env call st).2.spots ∧
    ∀ x ∈ (spotscan fuel env call st).2.spots,
      x ∈ st.spots ∨ x ∉ reserved_ink_names := by
  intro fuel
  induction fuel with
  | zero => intro env call st; exact ⟨Finset.Subset.refl _, fun x hx => Or.inl hx⟩
  | succ n ih =>
    intro env call st
    cases call with
    | check obj =>
      exact spots_check_body_sound env _ _
        (fun nm s => ih env (.byName nm) s)
        (fun es s => ih env (.byArray es) s) obj st
    | byName nm =>
      exact spots_by_name_body_sound env _
        (fun o s => ih env (.check o) s) nm st
    | byArray es =>
      exact spots_by_array_body_sound env _ _
        (fun o s => ih env (.check o) s)
        (fun es2 s => ih env (.byArray es2) s) es st

/-- C7: the spot scanner never adds a reserved ink name (any reserved name
found in the result set was already in the caller's set), and a second
scan of the same descriptor starting from the first scan's result set
returns the identical code and set: the set does not grow. -/
theorem C7_spot_set_reserved_and_idempotent (fuel : Nat) (env : SEnv)
    (obj : PdfObj) (st : SpotSt) :
    ((pdfi_check_ColorSpace_for_spots fuel env obj st).2.spots ∩ reserved_finset
      ⊆ st.spots) ∧
    pdfi_check_ColorSpace_for_spots fuel env obj
        (pdfi_check_ColorSpace_for_spots fuel env obj st).2
      = pdfi_check_ColorSpace_for_spots fuel env obj st := by
  constructor
  · intro x hx
    rcases Finset.mem_inter.mp hx with ⟨h1, h2⟩
    rcases (spotscan_sound fuel env (.check obj) st).2 x h1 with h | h
    · exact h
    · exact absurd ((mem_reserved_finset x).mp h2) h
  · have hgrow := (spotscan_sound fuel env (.check obj) st).1
    have hst : (pdfi_check_ColorSpace_for_spots fuel env obj st).2
        = sunion st (pdfi_check_ColorSpace_for_spots fuel env obj st).2.spots := by
      unfold sunion
      unfold pdfi_check_ColorSpace_for_spots at hgrow ⊢
      have hd := spotscan_depth fuel env (.check obj) st
      rcases hr : spotscan fuel env (.check obj) st with ⟨c, d, S⟩
      rw [hr] at hgrow hd
      dsimp only at hgrow hd ⊢
      rw [hd, Finset.union_eq_right.mpr hgrow]
    rw [hst, pdfi_check_ColorSpace_for_spots, pdfi_check_ColorSpace_for_spots,
      spotscan_shift]
    rcases hr : spotscan fuel env (.check obj) st with ⟨c, d, S⟩
    unfold sunion
    dsimp only
    rw [Finset.union_self]

end Pdfi
